import Mathlib

/-!
# example/main.go : the single-round handshake server

A shallow embedding of `main` (src/example/main.go).  `main` is one sequential
function over a UDP socket; every `panic` ends the run.  The embedding returns
the run as the list of calls `main` made, in order, each with its arguments and
its result, followed by the way the run ended.

Bytes are natural numbers below 256, byte slices and `bytes.Buffer` contents are
lists of bytes.  Functions of the `quic`, `crypto` and `utils` packages are not
part of this source file: they are taken as parameters (`Lib`, `KeyData`), and
everything the operating system decides (environment, files, socket) is the
`World`.
-/

namespace QuicExample

deriving instance DecidableEq for Except

abbrev Bytes := List Nat

/-- A Go `error` value. -/
abbrev Err := String

/-- A `quic.Tag`, a 32-bit value. -/
abbrev Tag := Nat

/-- A `net.UDPAddr`. -/
structure UDPAddr where
  IP : List Nat
  Port : Nat
deriving DecidableEq, Repr

/-- The fields of `quic.PublicHeader` that main reads or sets; a composite
literal leaves the fields it does not name at their zero value. -/
structure PublicHeader where
  VersionFlag : Bool := false
  QuicVersion : Nat := 0
  ConnectionID : Nat := 0
  PacketNumber : Nat := 0
deriving DecidableEq, Repr

/-- Modelled from the spec: the type `quic.StreamFrame` is declared outside this
source file; spec section 3 gives it a stream id, an offset and the data. -/
structure StreamFrame where
  StreamID : Nat := 0
  Offset : Nat := 0
  Data : Bytes := []
deriving DecidableEq, Repr

/-- Modelled from the spec: the type `quic.AckFrame` is declared outside this
source file; spec section 3 gives it a one-bit entropy parity and the largest
observed packet number. -/
structure AckFrame where
  Entropy : Bool := false
  LargestObserved : Nat := 0
deriving DecidableEq, Repr

/-- Modelled from the spec: `quic.EntropyAccumulator` is declared outside this
source file; spec section 3 gives it one boolean, the accumulated parity, and
its zero value is the fresh accumulator of `var entropyAcc`. -/
structure EntropyAccumulator where
  accumulatedParity : Bool := false
deriving DecidableEq, Repr

/-- Modelled from the spec: `EntropyAccumulator.Add` (section 4.5) XORs the
incoming bit into the accumulated parity; no record of packet numbers is kept. -/
def EntropyAccumulator.Add (e : EntropyAccumulator) (_packetNumber : Nat)
    (entropyBit : Bool) : EntropyAccumulator :=
  ⟨xor e.accumulatedParity entropyBit⟩

/-- Modelled from the spec: `EntropyAccumulator.Get` (section 4.5) returns the
current parity and changes nothing. -/
def EntropyAccumulator.Get (e : EntropyAccumulator) : Bool :=
  e.accumulatedParity

/-- A `bytes.Reader`: the slice it reads from and the read position. -/
structure Reader where
  s : Bytes
  i : Nat
deriving DecidableEq, Repr

/-- The function `bytes.NewReader`. -/
def NewReader (b : Bytes) : Reader := ⟨b, 0⟩

/-- The method `(*bytes.Reader).Len`: the number of unread bytes. -/
def Reader.Len (r : Reader) : Nat :=
  if r.i ≥ r.s.length then 0 else r.s.length - r.i

/-- The method `(*bytes.Reader).Size`: the length of the underlying slice. -/
def Reader.Size (r : Reader) : Nat := r.s.length

/-- The method `(*bytes.Reader).ReadByte`: the next byte and the advanced
reader, or `io.EOF`. -/
def Reader.ReadByte (r : Reader) : Except Err (Nat × Reader) :=
  if r.i ≥ r.s.length then .error "EOF"
  else .ok (r.s.getD r.i 0, ⟨r.s, r.i + 1⟩)

/-- The unread part of a reader. -/
def Reader.unread (r : Reader) : Bytes := r.s.drop r.i

/-- Modelled from the spec: `utils.ReadUint32BigEndian` is outside this source
file; by its name it reads four bytes and returns them as a big-endian 32-bit
value, with an error (and value 0) when fewer than four bytes are left. -/
def ReadUint32BigEndian (r : Reader) : Nat × Option Err :=
  match r.unread with
  | b0 :: b1 :: b2 :: b3 :: _ =>
    ((b0 % 256) * 2 ^ 24 + (b1 % 256) * 2 ^ 16 + (b2 % 256) * 2 ^ 8 + b3 % 256, none)
  | _ => (0, some "EOF")

/-- Modelled from the spec: `utils.WriteUint32BigEndian` is outside this source
file; by its name it appends the four bytes of a 32-bit value, most significant
first.  The result is the bytes appended to the buffer. -/
def WriteUint32BigEndian (v : Nat) : Bytes :=
  [v / 2 ^ 24 % 256, v / 2 ^ 16 % 256, v / 2 ^ 8 % 256, v % 256]

/-- The value `*crypto.KeyData` loaded from the certificate and key files. -/
structure KeyData where
  SignServerProof : Bytes → Bytes → Except Err Bytes
  GetCERTdata : Bytes

/-- The `quic` package as main uses it.  A function that writes into a
`bytes.Buffer` is given by the bytes it appends; a Go map is given by its
entries.  `ParsePublicHeader` reads from the reader it is handed and leaves it
at the returned position. -/
structure Lib where
  TagCHLO : Tag
  TagUAID : Tag
  TagSCFG : Tag
  TagSCID : Tag
  TagKEXS : Tag
  TagAEAD : Tag
  TagPUBS : Tag
  TagOBIT : Tag
  TagEXPY : Tag
  TagVER : Tag
  TagREJ : Tag
  TagCERT : Tag
  TagPROF : Tag
  ParsePublicHeader : Reader → Except Err PublicHeader × Nat
  WritePublicHeader : PublicHeader → Except Err Bytes
  Open : Nat → Bytes → Reader → Except Err Reader
  Seal : Nat → Bytes → Bytes → Bytes
  ParseStreamFrame : Reader → Except Err StreamFrame
  ParseCryptoMessage : Bytes → Except Err (Tag × List (Tag × Bytes))
  WriteCryptoMessage : Tag → List (Tag × Bytes) → Bytes
  WriteAckFrame : AckFrame → Bytes
  WriteStreamFrame : StreamFrame → Bytes

/-- What one call of `ReadFromUDP` meets: a datagram, an error, or no datagram
ever (the call does not return). -/
inductive ReadResult where
  | datagram (d : Bytes) (remoteAddr : UDPAddr)
  | error (e : Err)
  | blocks
deriving DecidableEq, Repr

/-- Everything outside the program: the environment variable, the key files,
the resolver, the socket (the k-th read and the error of the k-th write, counted
from 0) and the freshly generated key-exchange public key.  A read into a buffer
of `n` bytes that meets a datagram `d` returns `min (len d) n` and leaves the
first that many bytes of `d` in the buffer. -/
structure World where
  GOPATH : String
  LoadKeyData : String → String → Except Err KeyData
  ResolveUDPAddr : String → String → Except Err UDPAddr
  ListenUDP : String → UDPAddr → Option Err
  ReadFromUDP : Nat → ReadResult
  WriteToUDP : Nat → Option Err
  kexPublicKey : Bytes

/-- The value a run panicked with: an `error`, or a string. -/
inductive PanicValue where
  | err (e : Err)
  | str (s : String)
deriving DecidableEq, Repr

/-- How a run of main ends. -/
inductive Outcome where
  | returned
  | panicked (v : PanicValue)
  | blocked
deriving DecidableEq, Repr

/-- One call made by main, with its arguments and what it returned.
`ReadFromUDP` carries the length of the buffer it was offered. -/
inductive Event where
  | LoadKeyData (certPath keyPath : String) (err : Option Err)
  | ResolveUDPAddr (network address : String) (res : Except Err UDPAddr)
  | ListenUDP (network : String) (addr : UDPAddr) (err : Option Err)
  | ReadFromUDP (buflen : Nat) (res : ReadResult)
  | PrintRemoteAddr (remoteAddr : UDPAddr)
  | PrintSendingVersionNegotiationPacket
  | PrintTalkingTo (uaid : Bytes)
  | PrintResponsePublicHeader (h : PublicHeader)
  | PrintPublicHeader (h : PublicHeader)
  | ParsePublicHeader (input : Bytes) (res : Except Err PublicHeader) (pos : Nat)
  | WritePublicHeader (h : PublicHeader) (res : Except Err Bytes)
  | WriteUint32BigEndian (v : Nat)
  | WriteToUDP (b : Bytes) (addr : UDPAddr) (err : Option Err)
  | Open (packetNumber : Nat) (associatedData : Bytes) (r : Reader) (res : Except Err Reader)
  | ReadByte (res : Except Err (Nat × Reader))
  | EntropyAdd (packetNumber : Nat) (bit : Bool)
  | ParseStreamFrame (r : Reader) (res : Except Err StreamFrame)
  | ParseCryptoMessage (data : Bytes) (res : Except Err (Tag × List (Tag × Bytes)))
  | NewCurve25519KEX (publicKey : Bytes)
  | WriteCryptoMessage (tag : Tag) (entries : List (Tag × Bytes)) (out : Bytes)
  | SignServerProof (chlo serverConfig : Bytes) (res : Except Err Bytes)
  | GetCERTdata (res : Bytes)
  | EntropyGet (res : Bool)
  | WriteAckFrame (f : AckFrame) (out : Bytes)
  | WriteStreamFrame (f : StreamFrame) (out : Bytes)
  | Seal (packetNumber : Nat) (associatedData plaintext : Bytes) (out : Bytes)
deriving DecidableEq, Repr

/-- A run: the calls made, in order, and the way the run ended. -/
structure Run where
  trace : List Event
  outcome : Outcome
deriving DecidableEq, Repr

/-- The run that first makes the calls `evs` and then goes on as `r`. -/
def Run.after (evs : List Event) (r : Run) : Run :=
  ⟨evs ++ r.trace, r.outcome⟩

/-! ## Event classes and observations on a trace -/

def Event.isReadFromUDP : Event → Bool
  | .ReadFromUDP _ _ => true
  | _ => false

def Event.isWriteToUDP : Event → Bool
  | .WriteToUDP _ _ _ => true
  | _ => false

def Event.isParsePublicHeader : Event → Bool
  | .ParsePublicHeader _ _ _ => true
  | _ => false

def Event.isOpen : Event → Bool
  | .Open _ _ _ _ => true
  | _ => false

def Event.isSeal : Event → Bool
  | .Seal _ _ _ _ => true
  | _ => false

def Event.isParseStreamFrame : Event → Bool
  | .ParseStreamFrame _ _ => true
  | _ => false

def Event.isParseCryptoMessage : Event → Bool
  | .ParseCryptoMessage _ _ => true
  | _ => false

def Event.isSignServerProof : Event → Bool
  | .SignServerProof _ _ _ => true
  | _ => false

def Event.isWriteCryptoMessage : Event → Bool
  | .WriteCryptoMessage _ _ _ => true
  | _ => false

def Event.isEntropyAdd : Event → Bool
  | .EntropyAdd _ _ => true
  | _ => false

def Event.isEntropyGet : Event → Bool
  | .EntropyGet _ => true
  | _ => false

def Event.isWriteAckFrame : Event → Bool
  | .WriteAckFrame _ _ => true
  | _ => false

/-- The calls the block of lines 53-64 makes. -/
def Event.isNegotiation : Event → Bool
  | .PrintSendingVersionNegotiationPacket => true
  | .WritePublicHeader _ _ => true
  | .WriteUint32BigEndian _ => true
  | .WriteToUDP _ _ _ => true
  | _ => false

/-- The conversion `[]byte(s)` of an ASCII string literal. -/
def bytesOfString (s : String) : Bytes := s.toList.map Char.toNat

/-- The constant of lines 14-17. -/
def QuicVersionNumber32 : Nat := 32

/-- Line 20: the version tag read back from the bytes
`'Q', '0', 48 + (QuicVersionNumber32/10)%10, 48 + QuicVersionNumber32%10`;
the error of the read is dropped. -/
def QuicVersion32 : Nat :=
  (ReadUint32BigEndian (NewReader
    [Char.toNat 'Q', Char.toNat '0', (48 + (QuicVersionNumber32 / 10) % 10) % 256,
      (48 + QuicVersionNumber32 % 10) % 256])).1

/-- Lines 143-154: the second read, into the slice `buf` left by `data = data[:n]`,
and the parse of the public header of what was read. -/
def secondPacket (L : Lib) (W : World) (buf : Bytes) : Run :=
  match W.ReadFromUDP 1 with
  | .blocks => ⟨[.ReadFromUDP buf.length .blocks], .blocked⟩
  | .error e => ⟨[.ReadFromUDP buf.length (.error e)], .panicked (.err e)⟩
  | .datagram d a =>
    let n := min d.length buf.length
    let data := d.take n
    let r := NewReader data
    match L.ParsePublicHeader r with
    | (.error e, pos) =>
      ⟨[.ReadFromUDP buf.length (.datagram d a), .ParsePublicHeader data (.error e) pos],
        .panicked (.err e)⟩
    | (.ok publicHeader, pos) =>
      ⟨[.ReadFromUDP buf.length (.datagram d a), .ParsePublicHeader data (.ok publicHeader) pos,
          .PrintPublicHeader publicHeader], .returned⟩

/-- The entries of the SCFG message, lines 99-107. -/
def serverConfigEntries (L : Lib) (kexPublicKey : Bytes) : List (Tag × Bytes) :=
  [ (L.TagSCID, [0xC5, 0x1C, 0x73, 0x6B, 0x8F, 0x48, 0x49, 0xAE, 0xB3, 0x00, 0xA2, 0xD4, 0x4B,
      0xA0, 0xCF, 0xDF]),
    (L.TagKEXS, bytesOfString "C255"),
    (L.TagAEAD, bytesOfString "AESG"),
    (L.TagPUBS, [0x20, 0x00, 0x00] ++ kexPublicKey),
    (L.TagOBIT, [0x0, 0x1, 0x2, 0x3, 0x4, 0x5, 0x6, 0x7]),
    (L.TagEXPY, [0xff, 0xff, 0xff, 0xff, 0xff, 0xff, 0xff, 0xff]),
    (L.TagVER, bytesOfString "Q032") ]

/-- Lines 94-141, then the second packet: the SCFG message, the proof, the REJ
message, the reply frames, the sealed reply and its write.  `nw` is the number
of `WriteToUDP` calls made so far. -/
def reply (L : Lib) (W : World) (keyData : KeyData) (publicHeader : PublicHeader)
    (frame : StreamFrame) (cryptoData : List (Tag × Bytes)) (entropyAcc : EntropyAccumulator)
    (remoteAddr : UDPAddr) (data : Bytes) (nw : Nat) : Run :=
  let uaid := (cryptoData.lookup L.TagUAID).getD []
  let entries := serverConfigEntries L W.kexPublicKey
  let serverConfig := L.WriteCryptoMessage L.TagSCFG entries
  let t1 : List Event :=
    [.PrintTalkingTo uaid, .NewCurve25519KEX W.kexPublicKey,
      .WriteCryptoMessage L.TagSCFG entries serverConfig]
  match keyData.SignServerProof frame.Data serverConfig with
  | .error e =>
    ⟨t1 ++ [.SignServerProof frame.Data serverConfig (.error e)], .panicked (.err e)⟩
  | .ok proof =>
    let cert := keyData.GetCERTdata
    let rejEntries := [(L.TagSCFG, serverConfig), (L.TagCERT, cert), (L.TagPROF, proof)]
    let serverReply := L.WriteCryptoMessage L.TagREJ rejEntries
    let ack : AckFrame := { Entropy := entropyAcc.Get, LargestObserved := 1 }
    let ackBytes := L.WriteAckFrame ack
    let streamFrame : StreamFrame := { StreamID := 1, Data := serverReply }
    let streamBytes := L.WriteStreamFrame streamFrame
    let replyFrame := [0] ++ ackBytes ++ streamBytes
    let responsePublicHeader : PublicHeader :=
      { ConnectionID := publicHeader.ConnectionID, PacketNumber := 1 }
    let t2 : List Event :=
      t1 ++ [.SignServerProof frame.Data serverConfig (.ok proof), .GetCERTdata cert,
        .WriteCryptoMessage L.TagREJ rejEntries serverReply, .EntropyGet entropyAcc.Get,
        .WriteAckFrame ack ackBytes, .WriteStreamFrame streamFrame streamBytes,
        .PrintResponsePublicHeader responsePublicHeader]
    match L.WritePublicHeader responsePublicHeader with
    | .error e =>
      ⟨t2 ++ [.WritePublicHeader responsePublicHeader (.error e)], .panicked (.err e)⟩
    | .ok headerBytes =>
      let sealed := L.Seal 0 headerBytes replyFrame
      let fullReply := headerBytes ++ sealed
      Run.after
        (t2 ++ [.WritePublicHeader responsePublicHeader (.ok headerBytes),
          .Seal 0 headerBytes replyFrame sealed,
          .WriteToUDP fullReply remoteAddr (W.WriteToUDP nw)])
        (secondPacket L W data)

/-- Lines 66-92, then the reply: the payload is opened with the first
`Size - Len` bytes of the datagram as associated data, the private flag byte is
read and its low bit added to a fresh accumulator, one STREAM frame and the
handshake message in it are parsed, and the message tag is checked. -/
def handshake (L : Lib) (W : World) (keyData : KeyData) (publicHeader : PublicHeader)
    (r : Reader) (data : Bytes) (remoteAddr : UDPAddr) (nw : Nat) : Run :=
  let associatedData := data.take (r.Size - r.Len)
  match L.Open 0 associatedData r with
  | .error e => ⟨[.Open 0 associatedData r (.error e)], .panicked (.err e)⟩
  | .ok r2 =>
    match r2.ReadByte with
    | .error e =>
      ⟨[.Open 0 associatedData r (.ok r2), .ReadByte (.error e)], .panicked (.err e)⟩
    | .ok (privateFlag, r3) =>
      let bit : Bool := decide ((privateFlag &&& 0x01) > 0)
      let entropyAcc := ({} : EntropyAccumulator).Add publicHeader.PacketNumber bit
      let t1 : List Event :=
        [.Open 0 associatedData r (.ok r2), .ReadByte (.ok (privateFlag, r3)),
          .EntropyAdd publicHeader.PacketNumber bit]
      match L.ParseStreamFrame r3 with
      | .error e => ⟨t1 ++ [.ParseStreamFrame r3 (.error e)], .panicked (.err e)⟩
      | .ok frame =>
        match L.ParseCryptoMessage frame.Data with
        | .error e =>
          ⟨t1 ++ [.ParseStreamFrame r3 (.ok frame), .ParseCryptoMessage frame.Data (.error e)],
            .panicked (.err e)⟩
        | .ok (messageTag, cryptoData) =>
          let t2 : List Event :=
            t1 ++ [.ParseStreamFrame r3 (.ok frame),
              .ParseCryptoMessage frame.Data (.ok (messageTag, cryptoData))]
          if messageTag ≠ L.TagCHLO then ⟨t2, .panicked (.str "expected CHLO")⟩
          else
            Run.after t2
              (reply L W keyData publicHeader frame cryptoData entropyAcc remoteAddr data nw)

/-- Line 22: the directory of the certificate and key files. -/
def examplePath (W : World) : String :=
  W.GOPATH ++ "/src/github.com/lucas-clemente/quic-go/example/"

/-- Lines 53-64, the block of the `if`: when the parsed header has the version
flag set and a version other than `QuicVersion32`, a Version Negotiation Packet
is built and written.  The result is the calls made and the error that ends the
run, if any; the write is the first `WriteToUDP` of the run. -/
def versionNegotiation (L : Lib) (W : World) (publicHeader : PublicHeader)
    (remoteAddr : UDPAddr) : List Event × Option Err :=
  if publicHeader.VersionFlag && publicHeader.QuicVersion != QuicVersion32 then
    let responsePublicHeader : PublicHeader :=
      { ConnectionID := publicHeader.ConnectionID, PacketNumber := 1, VersionFlag := true }
    match L.WritePublicHeader responsePublicHeader with
    | .error e =>
      ([.PrintSendingVersionNegotiationPacket,
        .WritePublicHeader responsePublicHeader (.error e)], some e)
    | .ok headerBytes =>
      let fullReply := headerBytes ++ WriteUint32BigEndian QuicVersion32
      ([.PrintSendingVersionNegotiationPacket,
        .WritePublicHeader responsePublicHeader (.ok headerBytes),
        .WriteUint32BigEndian QuicVersion32,
        .WriteToUDP fullReply remoteAddr (W.WriteToUDP 0)], none)
  else ([], none)

/-- Lines 53-64 and what follows them: a panic in the block of the `if` ends the
run; otherwise the code after the `if` runs (`handshake`), whether or not the
block was entered. -/
def negotiate (L : Lib) (W : World) (keyData : KeyData) (publicHeader : PublicHeader)
    (r : Reader) (data : Bytes) (remoteAddr : UDPAddr) : Run :=
  let negotiation := versionNegotiation L W publicHeader remoteAddr
  match negotiation.2 with
  | some e => ⟨negotiation.1, .panicked (.err e)⟩
  | none =>
    Run.after negotiation.1
      (handshake L W keyData publicHeader r data remoteAddr
        (negotiation.1.countP Event.isWriteToUDP))

/-- The function `main`, lines 19-155: lines 20-51, then `negotiate`. -/
def main (L : Lib) (W : World) : Run :=
  let path := examplePath W
  match W.LoadKeyData (path ++ "cert.der") (path ++ "key.der") with
  | .error e =>
    ⟨[.LoadKeyData (path ++ "cert.der") (path ++ "key.der") (some e)], .panicked (.err e)⟩
  | .ok keyData =>
  let t0 : List Event := [.LoadKeyData (path ++ "cert.der") (path ++ "key.der") none]
  match W.ResolveUDPAddr "udp" "localhost:6121" with
  | .error e =>
    ⟨t0 ++ [.ResolveUDPAddr "udp" "localhost:6121" (.error e)], .panicked (.err e)⟩
  | .ok addr =>
  let t1 : List Event := t0 ++ [.ResolveUDPAddr "udp" "localhost:6121" (.ok addr)]
  match W.ListenUDP "udp" addr with
  | some e => ⟨t1 ++ [.ListenUDP "udp" addr (some e)], .panicked (.err e)⟩
  | none =>
  let t2 : List Event := t1 ++ [.ListenUDP "udp" addr none]
  match W.ReadFromUDP 0 with
  | .blocks => ⟨t2 ++ [.ReadFromUDP 0x10000 .blocks], .blocked⟩
  | .error e => ⟨t2 ++ [.ReadFromUDP 0x10000 (.error e)], .panicked (.err e)⟩
  | .datagram d remoteAddr =>
  let n := min d.length 0x10000
  let data := d.take n
  let t3 : List Event :=
    t2 ++ [.ReadFromUDP 0x10000 (.datagram d remoteAddr), .PrintRemoteAddr remoteAddr]
  match L.ParsePublicHeader (NewReader data) with
  | (.error e, pos) => ⟨t3 ++ [.ParsePublicHeader data (.error e) pos], .panicked (.err e)⟩
  | (.ok publicHeader, pos) =>
  let r : Reader := ⟨data, pos⟩
  Run.after (t3 ++ [.ParsePublicHeader data (.ok publicHeader) pos])
    (negotiate L W keyData publicHeader r data remoteAddr)

/-! ## Observations used in the statements -/

/-- The datagrams handed to `WriteToUDP`, in order. -/
def writtenDatagrams (t : List Event) : List Bytes :=
  t.filterMap fun e =>
    match e with
    | .WriteToUDP b _ _ => some b
    | _ => none

/-- The calls made before the first call of `NullAEAD.Open`. -/
def beforeOpen (t : List Event) : List Event :=
  t.takeWhile fun e => !e.isOpen

/-- The calls made from the first call of `NullAEAD.Seal` on. -/
def fromSeal (t : List Event) : List Event :=
  t.dropWhile fun e => !e.isSeal

/-- The calls made after the last call of `ReadFromUDP`. -/
def afterLastRead (t : List Event) : List Event :=
  (t.reverse.takeWhile fun e => !e.isReadFromUDP).reverse

/-- The calls made after the last call of `WriteToUDP`. -/
def afterLastWrite (t : List Event) : List Event :=
  (t.reverse.takeWhile fun e => !e.isWriteToUDP).reverse

/-- The same call with the error returned by `WriteToUDP` left out. -/
def Event.dropWriteErr : Event → Event
  | .WriteToUDP b a _ => .WriteToUDP b a none
  | e => e

/-- The error a `WriteToUDP` call returned. -/
def Event.writeErr : Event → Option Err
  | .WriteToUDP _ _ err => err
  | _ => none

/-- The REJ message of lines 113-118 for a server configuration, certificate
data and proof. -/
def rejMessage (L : Lib) (serverConfig cert proof : Bytes) : Bytes :=
  L.WriteCryptoMessage L.TagREJ [(L.TagSCFG, serverConfig), (L.TagCERT, cert), (L.TagPROF, proof)]

/-- The reply payload of lines 120-129 for an entropy bit and a REJ message: the
private flag byte 0, the ACK frame, the STREAM frame. -/
def replyPlaintext (L : Lib) (entropy : Bool) (rej : Bytes) : Bytes :=
  [0] ++ L.WriteAckFrame { LargestObserved := 1, Entropy := entropy }
    ++ L.WriteStreamFrame { StreamID := 1, Offset := 0, Data := rej }

/-- The world `W` with other results for its `WriteToUDP` calls. -/
def World.withWriteErrors (W : World) (writeErr : Nat → Option Err) : World :=
  { W with WriteToUDP := writeErr }

/-! ## The values of an attempt

The statements below speak of a run through the values it met: the key data,
the first datagram, the parsed header and so on.  `Attempt` names them, and the
predicates say how far the run got with these values. -/

/-- The server configuration message of lines 98-107. -/
def serverConfigMessage (L : Lib) (W : World) : Bytes :=
  L.WriteCryptoMessage L.TagSCFG (serverConfigEntries L W.kexPublicKey)

/-- The values met along one run of main, named as in the source; `d` and `d2`
are the datagrams delivered to the first and the second read. -/
structure Attempt where
  keyData : KeyData
  addr : UDPAddr
  d : Bytes
  remoteAddr : UDPAddr
  publicHeader : PublicHeader
  pos : Nat
  r2 : Reader
  privateFlag : Nat
  r3 : Reader
  frame : StreamFrame
  messageTag : Tag
  cryptoData : List (Tag × Bytes)
  proof : Bytes
  headerBytes : Bytes
  d2 : Bytes
  remoteAddr2 : UDPAddr
  publicHeader2 : PublicHeader
  pos2 : Nat

/-- Line 43: `data = data[:n]`, the first datagram as it lies in the buffer of
0x10000 bytes. -/
def Attempt.data (a : Attempt) : Bytes := a.d.take (min a.d.length 0x10000)

/-- The reader of line 44 as `ParsePublicHeader` left it. -/
def Attempt.r (a : Attempt) : Reader := ⟨a.data, a.pos⟩

/-- Line 67: `data[0:int(r.Size())-r.Len()]`. -/
def Attempt.associatedData (a : Attempt) : Bytes := a.data.take (a.r.Size - a.r.Len)

/-- Line 78: the bit added to the accumulator, `privateFlag&0x01 > 0`. -/
def Attempt.entropyBit (a : Attempt) : Bool := decide ((a.privateFlag &&& 0x01) > 0)

/-- Lines 77-78: the fresh accumulator after its one `Add`. -/
def Attempt.entropyAcc (a : Attempt) : EntropyAccumulator :=
  ({} : EntropyAccumulator).Add a.publicHeader.PacketNumber a.entropyBit

/-- Line 132: the public header of the reply. -/
def Attempt.responsePublicHeader (a : Attempt) : PublicHeader :=
  { ConnectionID := a.publicHeader.ConnectionID, PacketNumber := 1 }

/-- Lines 113-118: the REJ message of the attempt. -/
def Attempt.serverReply (a : Attempt) (L : Lib) (W : World) : Bytes :=
  rejMessage L (serverConfigMessage L W) a.keyData.GetCERTdata a.proof

/-- Lines 120-129: the payload of the reply. -/
def Attempt.replyFrame (a : Attempt) (L : Lib) (W : World) : Bytes :=
  replyPlaintext L a.entropyAcc.Get (a.serverReply L W)

/-- Line 147: the second datagram as it lies in the buffer the second read was
offered, which is `data` of line 43. -/
def Attempt.data2 (a : Attempt) : Bytes := a.d2.take (min a.d2.length a.data.length)

/-- The calls of the block of lines 53-64 in the attempt. -/
def Attempt.negotiationEvents (a : Attempt) (L : Lib) (W : World) : List Event :=
  (versionNegotiation L W a.publicHeader a.remoteAddr).1

/-- The number of `WriteToUDP` calls made before line 66. -/
def Attempt.writesBefore (a : Attempt) (L : Lib) (W : World) : Nat :=
  (a.negotiationEvents L W).countP Event.isWriteToUDP

/-- Line 54: the condition of the `if`. -/
def versionMismatch (publicHeader : PublicHeader) : Bool :=
  publicHeader.VersionFlag && publicHeader.QuicVersion != QuicVersion32

/-- Lines 22-51 succeed: the key data loads, the socket opens, the first read
delivers `d` from `remoteAddr`, and the public header parses. -/
structure Attempt.Received (a : Attempt) (L : Lib) (W : World) : Prop where
  loaded : W.LoadKeyData (examplePath W ++ "cert.der") (examplePath W ++ "key.der")
    = .ok a.keyData
  resolved : W.ResolveUDPAddr "udp" "localhost:6121" = .ok a.addr
  listening : W.ListenUDP "udp" a.addr = none
  read : W.ReadFromUDP 0 = .datagram a.d a.remoteAddr
  parsed : L.ParsePublicHeader (NewReader a.data) = (.ok a.publicHeader, a.pos)

/-- Lines 22-64 succeed: as `Received`, and the block of lines 53-64 does not
panic. -/
structure Attempt.Negotiated (a : Attempt) (L : Lib) (W : World) : Prop where
  received : a.Received L W
  negotiated : (versionNegotiation L W a.publicHeader a.remoteAddr).2 = none

/-- Lines 22-88 succeed: as `Negotiated`, and the payload opens, the private
flag byte is read, the STREAM frame parses and the handshake message in it
decodes to `messageTag` and `cryptoData`. -/
structure Attempt.Decoded (a : Attempt) (L : Lib) (W : World) : Prop where
  negotiated : a.Negotiated L W
  opened : L.Open 0 a.associatedData a.r = .ok a.r2
  flagRead : a.r2.ReadByte = .ok (a.privateFlag, a.r3)
  framed : L.ParseStreamFrame a.r3 = .ok a.frame
  decoded : L.ParseCryptoMessage a.frame.Data = .ok (a.messageTag, a.cryptoData)

/-- Lines 22-112 succeed: as `Decoded`, the message tag is CHLO and
`SignServerProof` returns `proof`. -/
structure Attempt.Signed (a : Attempt) (L : Lib) (W : World) : Prop where
  decoded : a.Decoded L W
  hello : a.messageTag = L.TagCHLO
  signed : a.keyData.SignServerProof a.frame.Data (serverConfigMessage L W) = .ok a.proof

/-- Lines 22-141 succeed: as `Signed`, and `WritePublicHeader` returns
`headerBytes` for the header of the reply. -/
structure Attempt.Replied (a : Attempt) (L : Lib) (W : World) : Prop where
  signed : a.Signed L W
  headerWritten : L.WritePublicHeader a.responsePublicHeader = .ok a.headerBytes

/-- The whole of main succeeds: as `Replied`, the second read delivers `d2` and
its public header parses. -/
structure Attempt.Completed (a : Attempt) (L : Lib) (W : World) : Prop where
  replied : a.Replied L W
  read2 : W.ReadFromUDP 1 = .datagram a.d2 a.remoteAddr2
  parsed2 : L.ParsePublicHeader (NewReader a.data2) = (.ok a.publicHeader2, a.pos2)

/-- The calls of lines 22-51 of an attempt that got through them. -/
def Attempt.receivedEvents (a : Attempt) (W : World) : List Event :=
  [.LoadKeyData (examplePath W ++ "cert.der") (examplePath W ++ "key.der") none,
    .ResolveUDPAddr "udp" "localhost:6121" (.ok a.addr),
    .ListenUDP "udp" a.addr none,
    .ReadFromUDP 0x10000 (.datagram a.d a.remoteAddr),
    .PrintRemoteAddr a.remoteAddr,
    .ParsePublicHeader a.data (.ok a.publicHeader) a.pos]

/-- The calls of lines 66-88 of an attempt that got through them. -/
def Attempt.decodedEvents (a : Attempt) : List Event :=
  [.Open 0 a.associatedData a.r (.ok a.r2),
    .ReadByte (.ok (a.privateFlag, a.r3)),
    .EntropyAdd a.publicHeader.PacketNumber a.entropyBit,
    .ParseStreamFrame a.r3 (.ok a.frame),
    .ParseCryptoMessage a.frame.Data (.ok (a.messageTag, a.cryptoData))]

/-- The calls of lines 94-133 of an attempt that got through them. -/
def Attempt.signedEvents (a : Attempt) (L : Lib) (W : World) : List Event :=
  [.PrintTalkingTo ((a.cryptoData.lookup L.TagUAID).getD []),
    .NewCurve25519KEX W.kexPublicKey,
    .WriteCryptoMessage L.TagSCFG (serverConfigEntries L W.kexPublicKey) (serverConfigMessage L W),
    .SignServerProof a.frame.Data (serverConfigMessage L W) (.ok a.proof),
    .GetCERTdata a.keyData.GetCERTdata,
    .WriteCryptoMessage L.TagREJ
      [(L.TagSCFG, serverConfigMessage L W), (L.TagCERT, a.keyData.GetCERTdata),
        (L.TagPROF, a.proof)]
      (a.serverReply L W),
    .EntropyGet a.entropyAcc.Get,
    .WriteAckFrame { LargestObserved := 1, Entropy := a.entropyAcc.Get }
      (L.WriteAckFrame { LargestObserved := 1, Entropy := a.entropyAcc.Get }),
    .WriteStreamFrame { StreamID := 1, Data := a.serverReply L W }
      (L.WriteStreamFrame { StreamID := 1, Data := a.serverReply L W }),
    .PrintResponsePublicHeader a.responsePublicHeader]

/-- The calls of lines 134-141 of an attempt that got through them; the
`WriteToUDP` of line 141 comes after `writesBefore` earlier ones. -/
def Attempt.sentEvents (a : Attempt) (L : Lib) (W : World) : List Event :=
  [.WritePublicHeader a.responsePublicHeader (.ok a.headerBytes),
    .Seal 0 a.headerBytes (a.replyFrame L W) (L.Seal 0 a.headerBytes (a.replyFrame L W)),
    .WriteToUDP (a.headerBytes ++ L.Seal 0 a.headerBytes (a.replyFrame L W)) a.remoteAddr
      (W.WriteToUDP (a.writesBefore L W))]

/-- Lines 134-154 as a run of their own: the header of the reply is written,
the reply sealed and sent, and the second packet read. -/
def Attempt.send (a : Attempt) (L : Lib) (W : World) : Run :=
  match L.WritePublicHeader a.responsePublicHeader with
  | .error e => ⟨[.WritePublicHeader a.responsePublicHeader (.error e)], .panicked (.err e)⟩
  | .ok headerBytes =>
    Run.after
      [.WritePublicHeader a.responsePublicHeader (.ok headerBytes),
        .Seal 0 headerBytes (a.replyFrame L W) (L.Seal 0 headerBytes (a.replyFrame L W)),
        .WriteToUDP (headerBytes ++ L.Seal 0 headerBytes (a.replyFrame L W)) a.remoteAddr
          (W.WriteToUDP (a.writesBefore L W))]
      (secondPacket L W a.data)

/-- The calls of lines 143-154 of an attempt that got through them. -/
def Attempt.secondEvents (a : Attempt) : List Event :=
  [.ReadFromUDP a.data.length (.datagram a.d2 a.remoteAddr2),
    .ParsePublicHeader a.data2 (.ok a.publicHeader2) a.pos2,
    .PrintPublicHeader a.publicHeader2]

/-! ## A concrete library and concrete worlds

A small instance of the parameters, following the layouts of spec section 4, on
which the statements below are evaluated. -/

/-- The little-endian value of a byte list. -/
def leValue : Bytes → Nat
  | [] => 0
  | b :: bs => b % 256 + 256 * leValue bs

/-- The `n` little-endian bytes of a value. -/
def leBytes : Nat → Nat → Bytes
  | 0, _ => []
  | n + 1, v => v % 256 :: leBytes n (v / 256)

/-- A tag from its four ASCII characters, first character lowest. -/
def tagOf (s : String) : Tag := leValue (bytesOfString s)

/-- The fixed 12-byte integrity tag of the sample NullAEAD. -/
def sampleAeadTag : Bytes := List.replicate 12 0xAA

/-- Flags byte, 8-byte connection id, 4-byte version when the low flag bit is
set, one-byte packet number. -/
def sampleParsePublicHeader (r : Reader) : Except Err PublicHeader × Nat :=
  match r.unread with
  | [] => (.error "EOF", r.i)
  | flags :: rest =>
    if flags % 2 = 1 then
      if rest.length < 13 then (.error "short header", r.s.length)
      else
        (.ok { VersionFlag := true,
               QuicVersion := (ReadUint32BigEndian ⟨rest, 8⟩).1,
               ConnectionID := leValue (rest.take 8),
               PacketNumber := rest.getD 12 0 }, r.i + 14)
    else
      if rest.length < 9 then (.error "short header", r.s.length)
      else
        (.ok { ConnectionID := leValue (rest.take 8), PacketNumber := rest.getD 8 0 }, r.i + 10)

def sampleWritePublicHeader (h : PublicHeader) : Except Err Bytes :=
  .ok ([if h.VersionFlag then 0x0D else 0x0C] ++ leBytes 8 h.ConnectionID ++ [h.PacketNumber % 256])

def sampleOpen (_packetNumber : Nat) (_associatedData : Bytes) (r : Reader) : Except Err Reader :=
  if r.unread.take 12 = sampleAeadTag then .ok (NewReader (r.unread.drop 12))
  else .error "authentication failure"

def sampleSeal (_packetNumber : Nat) (_associatedData : Bytes) (plaintext : Bytes) : Bytes :=
  sampleAeadTag ++ plaintext

/-- Type byte, one-byte stream id, data to the end of the packet. -/
def sampleParseStreamFrame (r : Reader) : Except Err StreamFrame :=
  match r.unread with
  | _ :: sid :: data => .ok { StreamID := sid, Data := data }
  | _ => .error "short frame"

/-- The values of an index table `(tag, end offset)` cut out of the value bytes. -/
def sampleEntries : Nat → Bytes → Bytes → Nat → List (Tag × Bytes)
  | 0, _, _, _ => []
  | n + 1, index, values, start =>
    let tag := leValue (index.take 4)
    let stop := leValue ((index.drop 4).take 4)
    (tag, (values.take stop).drop start) :: sampleEntries n (index.drop 8) values stop

/-- Message tag, entry count, index table, values (spec section 4.2). -/
def sampleParseCryptoMessage (b : Bytes) : Except Err (Tag × List (Tag × Bytes)) :=
  if b.length < 8 then .error "short message"
  else
    let n := leValue ((b.drop 4).take 4)
    if b.length < 8 + 8 * n then .error "short index"
    else .ok (leValue (b.take 4), sampleEntries n ((b.drop 8).take (8 * n)) (b.drop (8 + 8 * n)) 0)

/-- The index table of a list of entries, from a start offset. -/
def sampleIndex : List (Tag × Bytes) → Nat → Bytes
  | [], _ => []
  | (t, v) :: es, start =>
    leBytes 4 t ++ leBytes 4 (start + v.length) ++ sampleIndex es (start + v.length)

def sampleWriteCryptoMessage (tag : Tag) (entries : List (Tag × Bytes)) : Bytes :=
  leBytes 4 tag ++ leBytes 4 entries.length ++ sampleIndex entries 0
    ++ (entries.map Prod.snd).flatten

def sampleWriteAckFrame (f : AckFrame) : Bytes :=
  [0x40, f.LargestObserved % 256, if f.Entropy then 1 else 0]

def sampleWriteStreamFrame (f : StreamFrame) : Bytes :=
  [0x80, f.StreamID % 256] ++ f.Data

def sampleLib : Lib where
  TagCHLO := tagOf "CHLO"
  TagUAID := tagOf "UAID"
  TagSCFG := tagOf "SCFG"
  TagSCID := tagOf "SCID"
  TagKEXS := tagOf "KEXS"
  TagAEAD := tagOf "AEAD"
  TagPUBS := tagOf "PUBS"
  TagOBIT := tagOf "OBIT"
  TagEXPY := tagOf "EXPY"
  TagVER := tagOf "VER"
  TagREJ := tagOf "REJ"
  TagCERT := tagOf "CERT"
  TagPROF := tagOf "PROF"
  ParsePublicHeader := sampleParsePublicHeader
  WritePublicHeader := sampleWritePublicHeader
  Open := sampleOpen
  Seal := sampleSeal
  ParseStreamFrame := sampleParseStreamFrame
  ParseCryptoMessage := sampleParseCryptoMessage
  WriteCryptoMessage := sampleWriteCryptoMessage
  WriteAckFrame := sampleWriteAckFrame
  WriteStreamFrame := sampleWriteStreamFrame

/-- Key data whose signature is two fixed bytes and whose certificate data is
three. -/
def sampleKeyData : KeyData where
  SignServerProof := fun _ _ => .ok [0x51, 0x52]
  GetCERTdata := [1, 2, 3]

/-- Key data with which signing fails. -/
def failingKeyData : KeyData where
  SignServerProof := fun _ _ => .error "signing failure"
  GetCERTdata := [1, 2, 3]

def clientAddr : UDPAddr := ⟨[127, 0, 0, 1], 50000⟩

/-- A world in which everything succeeds: the key data loads, the socket opens,
the first read delivers `d1`, the second `d2`, the k-th write returns
`writeErr k`. -/
def sampleWorld (keyData : KeyData) (d1 d2 : Bytes) (writeErr : Nat → Option Err) : World where
  GOPATH := "/go"
  LoadKeyData := fun _ _ => .ok keyData
  ResolveUDPAddr := fun _ _ => .ok ⟨[127, 0, 0, 1], 6121⟩
  ListenUDP := fun _ _ => none
  ReadFromUDP := fun k =>
    if k = 0 then .datagram d1 clientAddr
    else if k = 1 then .datagram d2 clientAddr
    else .blocks
  WriteToUDP := writeErr
  kexPublicKey := [7, 7, 7, 7]

/-- A handshake message with the given tag and the one entry
`UAID -> "test-client"`. -/
def helloMessage (tag : String) : Bytes :=
  sampleWriteCryptoMessage (tagOf tag) [(tagOf "UAID", bytesOfString "test-client")]

/-- A client packet: version flag set, connection id 1..8, the given version,
packet number 1, the integrity tag, the private flag byte, one STREAM frame on
stream 1 carrying `message`. -/
def clientPacket (version : String) (privateFlag : Nat) (message : Bytes) : Bytes :=
  [0x0D, 1, 2, 3, 4, 5, 6, 7, 8] ++ bytesOfString version ++ [1]
    ++ sampleAeadTag ++ [privateFlag] ++ [0xA0, 1] ++ message

/-- The client's second packet: no version flag, connection id 1..8, packet
number 2, and a payload. -/
def secondClientPacket : Bytes := [0x0C, 1, 2, 3, 4, 5, 6, 7, 8, 2, 0xAA, 0xBB]

/-- The value of a successful call, or a default. -/
def okOr {α : Type} (x : Except Err α) (dflt : α) : α :=
  match x with
  | .ok v => v
  | .error _ => dflt

/-- The values main meets in `sampleWorld keyData d1 d2 _` with `sampleLib`. -/
def sampleAttempt (keyData : KeyData) (d1 d2 : Bytes) : Attempt :=
  let data := d1.take (min d1.length 0x10000)
  let parsed := sampleParsePublicHeader (NewReader data)
  let publicHeader := okOr parsed.1 {}
  let r : Reader := ⟨data, parsed.2⟩
  let r2 := okOr (sampleOpen 0 (data.take (r.Size - r.Len)) r) r
  let flag := okOr r2.ReadByte (0, r2)
  let frame := okOr (sampleParseStreamFrame flag.2) {}
  let message := okOr (sampleParseCryptoMessage frame.Data) (0, [])
  let serverConfig :=
    sampleWriteCryptoMessage sampleLib.TagSCFG (serverConfigEntries sampleLib [7, 7, 7, 7])
  let data2 := d2.take (min d2.length data.length)
  let parsed2 := sampleParsePublicHeader (NewReader data2)
  { keyData := keyData
    addr := ⟨[127, 0, 0, 1], 6121⟩
    d := d1
    remoteAddr := clientAddr
    publicHeader := publicHeader
    pos := parsed.2
    r2 := r2
    privateFlag := flag.1
    r3 := flag.2
    frame := frame
    messageTag := message.1
    cryptoData := message.2
    proof := okOr (keyData.SignServerProof frame.Data serverConfig) []
    headerBytes :=
      okOr (sampleWritePublicHeader { ConnectionID := publicHeader.ConnectionID, PacketNumber := 1 })
        []
    d2 := d2
    remoteAddr2 := clientAddr
    publicHeader2 := okOr parsed2.1 {}
    pos2 := parsed2.2 }

/-! ## Concrete worlds -/

/-- The client speaks Q032 and sends a CHLO; every call succeeds. -/
def helloWorld : World :=
  sampleWorld sampleKeyData (clientPacket "Q032" 1 (helloMessage "CHLO")) secondClientPacket
    (fun _ => none)

/-- As `helloWorld`, with key data that cannot sign. -/
def unsignedWorld : World :=
  sampleWorld failingKeyData (clientPacket "Q032" 1 (helloMessage "CHLO")) secondClientPacket
    (fun _ => none)

/-- The client sends a message with tag SHLO in place of CHLO. -/
def shloWorld : World :=
  sampleWorld sampleKeyData (clientPacket "Q032" 1 (helloMessage "SHLO")) secondClientPacket
    (fun _ => none)

/-- The client speaks Q031 and sends a CHLO; every call succeeds. -/
def mismatchWorld : World :=
  sampleWorld sampleKeyData (clientPacket "Q031" 1 (helloMessage "CHLO")) secondClientPacket
    (fun _ => none)

/-- As `mismatchWorld`, but every `WriteToUDP` returns an error. -/
def unreachableWorld : World :=
  sampleWorld sampleKeyData (clientPacket "Q031" 1 (helloMessage "CHLO")) secondClientPacket
    (fun _ => some "network is unreachable")

/-- As `helloWorld`, with a second datagram of 112 bytes, twice as long as the
first. -/
def shortFirstWorld : World :=
  sampleWorld sampleKeyData (clientPacket "Q032" 1 (helloMessage "CHLO"))
    (secondClientPacket ++ List.replicate 100 0xCC) (fun _ => none)

/-- The sample library with a `WritePublicHeader` that always fails. -/
def failingHeaderLib : Lib :=
  { sampleLib with WritePublicHeader := fun _ => .error "header write failure" }

/-- The values of the run in `helloWorld`. -/
def helloAttempt : Attempt :=
  sampleAttempt sampleKeyData (clientPacket "Q032" 1 (helloMessage "CHLO")) secondClientPacket

/-- The values of the run in `unsignedWorld`. -/
def unsignedAttempt : Attempt :=
  sampleAttempt failingKeyData (clientPacket "Q032" 1 (helloMessage "CHLO")) secondClientPacket

/-- The values of the run in `shloWorld`. -/
def shloAttempt : Attempt :=
  sampleAttempt sampleKeyData (clientPacket "Q032" 1 (helloMessage "SHLO")) secondClientPacket

/-- The values of the run in `mismatchWorld` and in `unreachableWorld`. -/
def mismatchAttempt : Attempt :=
  sampleAttempt sampleKeyData (clientPacket "Q031" 1 (helloMessage "CHLO")) secondClientPacket

/-- The values of the run in `shortFirstWorld`. -/
def shortFirstAttempt : Attempt :=
  sampleAttempt sampleKeyData (clientPacket "Q032" 1 (helloMessage "CHLO"))
    (secondClientPacket ++ List.replicate 100 0xCC)

/-! ## How a run unfolds -/

@[simp] theorem Run.after_trace (evs : List Event) (r : Run) :
    (Run.after evs r).trace = evs ++ r.trace := rfl

@[simp] theorem Run.after_outcome (evs : List Event) (r : Run) :
    (Run.after evs r).outcome = r.outcome := rfl

theorem Run.after_after (e1 e2 : List Event) (r : Run) :
    Run.after e1 (Run.after e2 r) = Run.after (e1 ++ e2) r := by
  simp [Run.after]

/-- The three ways the block of lines 53-64 can go. -/
theorem versionNegotiation_cases (L : Lib) (W : World) (h : PublicHeader) (a : UDPAddr) :
    (versionMismatch h = false ∧ versionNegotiation L W h a = ([], none)) ∨
    (versionMismatch h = true ∧
      ∃ e, L.WritePublicHeader
          { ConnectionID := h.ConnectionID, PacketNumber := 1, VersionFlag := true } = .error e ∧
        versionNegotiation L W h a =
          ([.PrintSendingVersionNegotiationPacket,
            .WritePublicHeader
              { ConnectionID := h.ConnectionID, PacketNumber := 1, VersionFlag := true }
              (.error e)], some e)) ∨
    (versionMismatch h = true ∧
      ∃ b, L.WritePublicHeader
          { ConnectionID := h.ConnectionID, PacketNumber := 1, VersionFlag := true } = .ok b ∧
        versionNegotiation L W h a =
          ([.PrintSendingVersionNegotiationPacket,
            .WritePublicHeader
              { ConnectionID := h.ConnectionID, PacketNumber := 1, VersionFlag := true } (.ok b),
            .WriteUint32BigEndian QuicVersion32,
            .WriteToUDP (b ++ WriteUint32BigEndian QuicVersion32) a (W.WriteToUDP 0)], none)) := by
  simp only [versionNegotiation, versionMismatch]
  split
  · split
    · next e he => exact Or.inr (Or.inl ⟨by assumption, e, he, rfl⟩)
    · next b hb => exact Or.inr (Or.inr ⟨by assumption, b, hb, rfl⟩)
  · next hc => exact Or.inl ⟨(Bool.not_eq_true _).mp hc, rfl⟩

theorem main_of_received (L : Lib) (W : World) (a : Attempt) (h : a.Received L W) :
    main L W = Run.after (a.receivedEvents W)
      (negotiate L W a.keyData a.publicHeader a.r a.data a.remoteAddr) := by
  have hp := h.parsed
  simp only [Attempt.data] at hp
  simp only [main, h.loaded, h.resolved, h.listening, h.read, hp]
  rfl

theorem main_of_negotiated (L : Lib) (W : World) (a : Attempt) (h : a.Negotiated L W) :
    main L W = Run.after (a.receivedEvents W ++ a.negotiationEvents L W)
      (handshake L W a.keyData a.publicHeader a.r a.data a.remoteAddr (a.writesBefore L W)) := by
  rw [main_of_received L W a h.received]
  simp only [negotiate, h.negotiated, Run.after_after]
  rfl

theorem main_of_decoded (L : Lib) (W : World) (a : Attempt) (h : a.Decoded L W) :
    main L W =
      if a.messageTag ≠ L.TagCHLO then
        ⟨a.receivedEvents W ++ a.negotiationEvents L W ++ a.decodedEvents,
          .panicked (.str "expected CHLO")⟩
      else
        Run.after (a.receivedEvents W ++ a.negotiationEvents L W ++ a.decodedEvents)
          (reply L W a.keyData a.publicHeader a.frame a.cryptoData a.entropyAcc a.remoteAddr
            a.data (a.writesBefore L W)) := by
  rw [main_of_negotiated L W a h.negotiated]
  have ho := h.opened
  simp only [Attempt.associatedData] at ho
  simp only [handshake, ho, h.flagRead, h.framed, h.decoded]
  split <;> simp [Run.after, Attempt.decodedEvents, Attempt.associatedData, Attempt.entropyBit,
    Attempt.entropyAcc]

theorem main_of_signed (L : Lib) (W : World) (a : Attempt) (h : a.Signed L W) :
    main L W =
      Run.after (a.receivedEvents W ++ a.negotiationEvents L W ++ a.decodedEvents
          ++ a.signedEvents L W) (a.send L W) := by
  rw [main_of_decoded L W a h.decoded]
  have hs := h.signed
  simp only [serverConfigMessage] at hs
  simp only [h.hello, ne_eq, not_true_eq_false, if_false, reply, hs, Attempt.send,
    Attempt.responsePublicHeader]
  split <;>
    simp [Run.after, Attempt.signedEvents, Attempt.serverReply, Attempt.replyFrame, rejMessage,
      replyPlaintext, serverConfigMessage, Attempt.responsePublicHeader]

theorem main_of_replied (L : Lib) (W : World) (a : Attempt) (h : a.Replied L W) :
    main L W =
      Run.after (a.receivedEvents W ++ a.negotiationEvents L W ++ a.decodedEvents
          ++ a.signedEvents L W ++ a.sentEvents L W)
        (secondPacket L W a.data) := by
  rw [main_of_signed L W a h.signed]
  simp only [Attempt.send, h.headerWritten, Run.after_after, Attempt.sentEvents]

theorem main_of_completed (L : Lib) (W : World) (a : Attempt) (h : a.Completed L W) :
    main L W =
      ⟨a.receivedEvents W ++ a.negotiationEvents L W ++ a.decodedEvents
          ++ a.signedEvents L W ++ a.sentEvents L W ++ a.secondEvents,
        .returned⟩ := by
  rw [main_of_replied L W a h.replied]
  have hp := h.parsed2
  simp only [Attempt.data2] at hp
  simp only [secondPacket, h.read2, hp]
  simp [Run.after, Attempt.secondEvents, Attempt.data2]

/-! ## What the stages do not do -/

/-- The calls of `secondPacket` are reads, header parses and the final print. -/
theorem mem_secondPacket (L : Lib) (W : World) (buf : Bytes) (e : Event)
    (he : e ∈ (secondPacket L W buf).trace) :
    (∃ r, e = .ReadFromUDP buf.length r) ∨ (∃ i r p, e = .ParsePublicHeader i r p) ∨
      (∃ h, e = .PrintPublicHeader h) := by
  revert he
  simp only [secondPacket]
  split
  · simp only [List.mem_singleton]; rintro rfl; simp
  · simp only [List.mem_singleton]; rintro rfl; simp
  · split
    · simp only [List.mem_cons, List.mem_singleton, List.not_mem_nil, or_false]
      rintro (rfl | rfl) <;> simp
    · simp only [List.mem_cons, List.mem_singleton, List.not_mem_nil, or_false]
      rintro (rfl | rfl | rfl) <;> simp

/-- A class of calls that holds none of the three kinds of calls `secondPacket`
makes is not met in it. -/
theorem secondPacket_filter (L : Lib) (W : World) (buf : Bytes) (p : Event → Bool)
    (h1 : ∀ n r, p (.ReadFromUDP n r) = false)
    (h2 : ∀ i r q, p (.ParsePublicHeader i r q) = false)
    (h3 : ∀ h, p (.PrintPublicHeader h) = false) :
    (secondPacket L W buf).trace.filter p = [] := by
  rw [List.filter_eq_nil_iff]
  intro e he
  rcases mem_secondPacket L W buf e he with ⟨r, rfl⟩ | ⟨i, r, q, rfl⟩ | ⟨h, rfl⟩ <;> simp [h1, h2, h3]

theorem secondPacket_written (L : Lib) (W : World) (buf : Bytes) :
    writtenDatagrams (secondPacket L W buf).trace = [] := by
  simp only [writtenDatagrams, List.filterMap_eq_nil_iff]
  intro e he
  rcases mem_secondPacket L W buf e he with ⟨r, rfl⟩ | ⟨i, r, q, rfl⟩ | ⟨h, rfl⟩ <;> rfl

theorem secondPacket_outcome (L : Lib) (W : World) (buf : Bytes) (s : String) :
    (secondPacket L W buf).outcome ≠ .panicked (.str s) := by
  simp only [secondPacket]
  split
  · simp
  · simp
  · split <;> simp

theorem reply_outcome (L : Lib) (W : World) (keyData : KeyData) (publicHeader : PublicHeader)
    (frame : StreamFrame) (cryptoData : List (Tag × Bytes)) (entropyAcc : EntropyAccumulator)
    (remoteAddr : UDPAddr) (data : Bytes) (nw : Nat) (s : String) :
    (reply L W keyData publicHeader frame cryptoData entropyAcc remoteAddr data nw).outcome
      ≠ .panicked (.str s) := by
  simp only [reply]
  split
  · simp
  · split
    · simp
    · simpa using secondPacket_outcome L W data s

/-- The calls of the block of lines 53-64 are of four kinds. -/
theorem mem_versionNegotiation (L : Lib) (W : World) (h : PublicHeader) (a : UDPAddr)
    (e : Event) (he : e ∈ (versionNegotiation L W h a).1) : e.isNegotiation = true := by
  rcases versionNegotiation_cases L W h a with ⟨_, hv⟩ | ⟨_, e, _, hv⟩ | ⟨_, b, _, hv⟩ <;>
    rw [hv] at he <;> simp at he
  · rcases he with rfl | rfl <;> rfl
  · rcases he with rfl | rfl | rfl | rfl <;> rfl

/-- A class of calls that holds none of the four kinds of calls the block of
lines 53-64 makes is not met in it. -/
theorem versionNegotiation_filter (L : Lib) (W : World) (h : PublicHeader) (a : UDPAddr)
    (p : Event → Bool) (hp : ∀ e, e.isNegotiation = true → p e = false) :
    (versionNegotiation L W h a).1.filter p = [] := by
  rw [List.filter_eq_nil_iff]
  intro e he
  simp [hp e (mem_versionNegotiation L W h a e he)]

/-! ## From the end of a run back to its values -/

/-- A run that returns went through every line of main. -/
theorem completed_of_returned (L : Lib) (W : World)
    (h : (main L W).outcome = .returned) : ∃ a : Attempt, a.Completed L W := by
  revert h
  simp only [main, negotiate, handshake, reply, secondPacket, Run.after]
  repeat' split
  all_goals first
    | (intro h; cases h; done)
    | (intro hret
       rename_i _ keyData hkey _ addr haddr _ hlisten _ d remoteAddr hread _ publicHeader pos
         hparse _ hneg _ r2 hopen _ privateFlag r3 hbyte _ frame hframe _ messageTag cryptoData
         hdec htag _ proof hsign _ headerBytes hwph _ d2 remoteAddr2 hread2 _ publicHeader2 pos2
         hparse2
       exact ⟨⟨keyData, addr, d, remoteAddr, publicHeader, pos, r2, privateFlag, r3, frame,
         messageTag, cryptoData, proof, headerBytes, d2, remoteAddr2, publicHeader2, pos2⟩,
         ⟨⟨⟨⟨⟨⟨hkey, haddr, hlisten, hread, hparse⟩, hneg⟩, hopen, hbyte, hframe, hdec⟩,
           not_not.mp htag, hsign⟩, hwph⟩, hread2, hparse2⟩⟩)

/-! ## Calls a stage does not make -/

@[simp] theorem negotiationEvents_filter_isOpen (a : Attempt) (L : Lib) (W : World) :
    (a.negotiationEvents L W).filter Event.isOpen = [] :=
  versionNegotiation_filter L W _ _ _ (fun e he => by cases e <;> first | rfl | cases he)

@[simp] theorem negotiationEvents_filter_isSeal (a : Attempt) (L : Lib) (W : World) :
    (a.negotiationEvents L W).filter Event.isSeal = [] :=
  versionNegotiation_filter L W _ _ _ (fun e he => by cases e <;> first | rfl | cases he)

@[simp] theorem negotiationEvents_filter_isSignServerProof (a : Attempt) (L : Lib) (W : World) :
    (a.negotiationEvents L W).filter Event.isSignServerProof = [] :=
  versionNegotiation_filter L W _ _ _ (fun e he => by cases e <;> first | rfl | cases he)

@[simp] theorem negotiationEvents_filter_isWriteCryptoMessage (a : Attempt) (L : Lib) (W : World) :
    (a.negotiationEvents L W).filter Event.isWriteCryptoMessage = [] :=
  versionNegotiation_filter L W _ _ _ (fun e he => by cases e <;> first | rfl | cases he)

@[simp] theorem negotiationEvents_filter_isEntropyAdd (a : Attempt) (L : Lib) (W : World) :
    (a.negotiationEvents L W).filter Event.isEntropyAdd = [] :=
  versionNegotiation_filter L W _ _ _ (fun e he => by cases e <;> first | rfl | cases he)

@[simp] theorem negotiationEvents_filter_isEntropyGet (a : Attempt) (L : Lib) (W : World) :
    (a.negotiationEvents L W).filter Event.isEntropyGet = [] :=
  versionNegotiation_filter L W _ _ _ (fun e he => by cases e <;> first | rfl | cases he)

@[simp] theorem negotiationEvents_filter_isReadFromUDP (a : Attempt) (L : Lib) (W : World) :
    (a.negotiationEvents L W).filter Event.isReadFromUDP = [] :=
  versionNegotiation_filter L W _ _ _ (fun e he => by cases e <;> first | rfl | cases he)

@[simp] theorem negotiationEvents_filter_isParsePublicHeader (a : Attempt) (L : Lib) (W : World) :
    (a.negotiationEvents L W).filter Event.isParsePublicHeader = [] :=
  versionNegotiation_filter L W _ _ _ (fun e he => by cases e <;> first | rfl | cases he)

@[simp] theorem negotiationEvents_filter_isParseStreamFrame (a : Attempt) (L : Lib) (W : World) :
    (a.negotiationEvents L W).filter Event.isParseStreamFrame = [] :=
  versionNegotiation_filter L W _ _ _ (fun e he => by cases e <;> first | rfl | cases he)

@[simp] theorem negotiationEvents_filter_isParseCryptoMessage (a : Attempt) (L : Lib) (W : World) :
    (a.negotiationEvents L W).filter Event.isParseCryptoMessage = [] :=
  versionNegotiation_filter L W _ _ _ (fun e he => by cases e <;> first | rfl | cases he)

@[simp] theorem negotiationEvents_filter_isWriteAckFrame (a : Attempt) (L : Lib) (W : World) :
    (a.negotiationEvents L W).filter Event.isWriteAckFrame = [] :=
  versionNegotiation_filter L W _ _ _ (fun e he => by cases e <;> first | rfl | cases he)

@[simp] theorem secondPacket_filter_isOpen (L : Lib) (W : World) (buf : Bytes) :
    (secondPacket L W buf).trace.filter Event.isOpen = [] :=
  secondPacket_filter L W buf _ (fun _ _ => rfl) (fun _ _ _ => rfl) (fun _ => rfl)

@[simp] theorem secondPacket_filter_isSeal (L : Lib) (W : World) (buf : Bytes) :
    (secondPacket L W buf).trace.filter Event.isSeal = [] :=
  secondPacket_filter L W buf _ (fun _ _ => rfl) (fun _ _ _ => rfl) (fun _ => rfl)

@[simp] theorem secondPacket_filter_isSignServerProof (L : Lib) (W : World) (buf : Bytes) :
    (secondPacket L W buf).trace.filter Event.isSignServerProof = [] :=
  secondPacket_filter L W buf _ (fun _ _ => rfl) (fun _ _ _ => rfl) (fun _ => rfl)

@[simp] theorem secondPacket_filter_isWriteCryptoMessage (L : Lib) (W : World) (buf : Bytes) :
    (secondPacket L W buf).trace.filter Event.isWriteCryptoMessage = [] :=
  secondPacket_filter L W buf _ (fun _ _ => rfl) (fun _ _ _ => rfl) (fun _ => rfl)

@[simp] theorem secondPacket_filter_isEntropyAdd (L : Lib) (W : World) (buf : Bytes) :
    (secondPacket L W buf).trace.filter Event.isEntropyAdd = [] :=
  secondPacket_filter L W buf _ (fun _ _ => rfl) (fun _ _ _ => rfl) (fun _ => rfl)

@[simp] theorem secondPacket_filter_isEntropyGet (L : Lib) (W : World) (buf : Bytes) :
    (secondPacket L W buf).trace.filter Event.isEntropyGet = [] :=
  secondPacket_filter L W buf _ (fun _ _ => rfl) (fun _ _ _ => rfl) (fun _ => rfl)

@[simp] theorem secondPacket_filter_isWriteToUDP (L : Lib) (W : World) (buf : Bytes) :
    (secondPacket L W buf).trace.filter Event.isWriteToUDP = [] :=
  secondPacket_filter L W buf _ (fun _ _ => rfl) (fun _ _ _ => rfl) (fun _ => rfl)

@[simp] theorem secondPacket_filter_isParseStreamFrame (L : Lib) (W : World) (buf : Bytes) :
    (secondPacket L W buf).trace.filter Event.isParseStreamFrame = [] :=
  secondPacket_filter L W buf _ (fun _ _ => rfl) (fun _ _ _ => rfl) (fun _ => rfl)

@[simp] theorem secondPacket_filter_isParseCryptoMessage (L : Lib) (W : World) (buf : Bytes) :
    (secondPacket L W buf).trace.filter Event.isParseCryptoMessage = [] :=
  secondPacket_filter L W buf _ (fun _ _ => rfl) (fun _ _ _ => rfl) (fun _ => rfl)

@[simp] theorem secondPacket_filter_isWriteAckFrame (L : Lib) (W : World) (buf : Bytes) :
    (secondPacket L W buf).trace.filter Event.isWriteAckFrame = [] :=
  secondPacket_filter L W buf _ (fun _ _ => rfl) (fun _ _ _ => rfl) (fun _ => rfl)

theorem dropWhile_not_append (p : Event → Bool) (l r : List Event) (h : l.filter p = []) :
    (l ++ r).dropWhile (fun e => !p e) = r.dropWhile (fun e => !p e) := by
  apply List.dropWhile_append_of_pos
  intro e he
  have := (List.filter_eq_nil_iff.mp h) e he
  simpa using this

theorem takeWhile_not_append (p : Event → Bool) (l r : List Event) (h : l.filter p = []) :
    (l ++ r).takeWhile (fun e => !p e) = l ++ r.takeWhile (fun e => !p e) := by
  apply List.takeWhile_append_of_pos
  intro e he
  have := (List.filter_eq_nil_iff.mp h) e he
  simpa using this

theorem writtenDatagrams_append (l r : List Event) :
    writtenDatagrams (l ++ r) = writtenDatagrams l ++ writtenDatagrams r := by
  simp [writtenDatagrams]

/-! ## C1 : the reply datagram -/

/-- An attempt that decodes a CHLO and whose `SignServerProof` fails: main panics
with the error, and calls neither `Seal` nor `WriteToUDP` after line 64. -/
theorem main_of_sign_error (L : Lib) (W : World) (a : Attempt) (h : a.Decoded L W)
    (hello : a.messageTag = L.TagCHLO) (e : Err)
    (hs : a.keyData.SignServerProof a.frame.Data (serverConfigMessage L W) = .error e) :
    (main L W).outcome = .panicked (.err e) ∧
    (main L W).trace.filter Event.isSeal = [] ∧
    (main L W).trace.filter Event.isWriteToUDP
      = (a.negotiationEvents L W).filter Event.isWriteToUDP := by
  rw [main_of_decoded L W a h]
  simp only [serverConfigMessage] at hs
  simp only [hello, ne_eq, not_true_eq_false, if_false, reply, hs]
  simp [Attempt.receivedEvents, Attempt.decodedEvents, Event.isSeal, Event.isWriteToUDP]

/-- An attempt that signs and whose `WritePublicHeader` of the reply fails: main
panics with the error, and calls neither `Seal` nor `WriteToUDP` after line 64. -/
theorem main_of_header_error (L : Lib) (W : World) (a : Attempt) (h : a.Signed L W) (e : Err)
    (hw : L.WritePublicHeader a.responsePublicHeader = .error e) :
    (main L W).outcome = .panicked (.err e) ∧
    (main L W).trace.filter Event.isSeal = [] ∧
    (main L W).trace.filter Event.isWriteToUDP
      = (a.negotiationEvents L W).filter Event.isWriteToUDP := by
  rw [main_of_signed L W a h]
  simp only [Attempt.send, hw]
  simp [Attempt.receivedEvents, Attempt.decodedEvents, Attempt.signedEvents, Event.isSeal,
    Event.isWriteToUDP]

/-- The reply of an attempt that gets through lines 22-141. -/
theorem main_reply (L : Lib) (W : World) (a : Attempt) (h : a.Replied L W) :
    Event.WritePublicHeader
        { ConnectionID := a.publicHeader.ConnectionID, PacketNumber := 1, VersionFlag := false }
        (.ok a.headerBytes) ∈ (main L W).trace ∧
    (main L W).trace.filter Event.isSeal =
      [.Seal 0 a.headerBytes
        ([0] ++ L.WriteAckFrame { LargestObserved := 1, Entropy := a.entropyAcc.Get }
          ++ L.WriteStreamFrame { StreamID := 1, Offset := 0, Data := a.serverReply L W })
        (L.Seal 0 a.headerBytes
          ([0] ++ L.WriteAckFrame { LargestObserved := 1, Entropy := a.entropyAcc.Get }
            ++ L.WriteStreamFrame { StreamID := 1, Offset := 0, Data := a.serverReply L W }))] ∧
    writtenDatagrams (fromSeal (main L W).trace) =
      [a.headerBytes ++ L.Seal 0 a.headerBytes
        ([0] ++ L.WriteAckFrame { LargestObserved := 1, Entropy := a.entropyAcc.Get }
          ++ L.WriteStreamFrame { StreamID := 1, Offset := 0, Data := a.serverReply L W })] := by
  rw [main_of_replied L W a h]
  refine ⟨?_, ?_, ?_⟩
  · simp [Attempt.sentEvents, Attempt.responsePublicHeader]
  · simp [Attempt.receivedEvents, Attempt.decodedEvents, Attempt.signedEvents,
      Attempt.sentEvents, Event.isSeal, Attempt.replyFrame, replyPlaintext]
  · have hp : (a.receivedEvents W ++ a.negotiationEvents L W ++ a.decodedEvents
        ++ a.signedEvents L W).filter Event.isSeal = [] := by
      simp [Attempt.receivedEvents, Attempt.decodedEvents, Attempt.signedEvents, Event.isSeal]
    simp only [fromSeal, Run.after_trace, List.append_assoc] at hp ⊢
    simp only [← List.append_assoc] at hp ⊢
    rw [List.append_assoc _ (a.sentEvents L W), dropWhile_not_append Event.isSeal _ _ hp]
    simp [Attempt.sentEvents, Event.isSeal, writtenDatagrams, Attempt.replyFrame,
      replyPlaintext]
    simpa [writtenDatagrams] using secondPacket_written L W a.data

/-- C1, amended.  Take any attempt in which the inbound packet parses, opens,
carries a STREAM frame and decodes to a message with tag CHLO (`a.Decoded` with
tag `TagCHLO`).
When `SignServerProof` returns an error, main panics with that error, `Seal` is
never called and the only `WriteToUDP` calls of the run are those of the block
of lines 53-64: no reply datagram is built.  The same holds when
`SignServerProof` returns a proof and the `WritePublicHeader` of the reply
returns an error.
When `SignServerProof` returns `proof` and `WritePublicHeader` returns
`headerBytes` for `PublicHeader{ConnectionID: inbound id, PacketNumber: 1}`
(version flag unset): that call is made; `Seal` is called exactly once, with
packet number 0, those header bytes as associated data and the plaintext made of
the byte 0, the ACK frame of
`AckFrame{LargestObserved: 1, Entropy: entropyAcc.Get()}` and the STREAM frame of
`StreamFrame{StreamID: 1, Offset: 0, Data: REJ message}`, in this order; and from
the `Seal` call on exactly one datagram is written, the header bytes followed by
what `Seal` appended. -/
theorem C1_reply_datagram (L : Lib) (W : World) (a : Attempt) (h : a.Decoded L W)
    (hello : a.messageTag = L.TagCHLO) :
    (∀ e, a.keyData.SignServerProof a.frame.Data
          (L.WriteCryptoMessage L.TagSCFG (serverConfigEntries L W.kexPublicKey)) = .error e →
      (main L W).outcome = .panicked (.err e) ∧
      (main L W).trace.filter Event.isSeal = [] ∧
      (main L W).trace.filter Event.isWriteToUDP
        = (a.negotiationEvents L W).filter Event.isWriteToUDP) ∧
    (a.keyData.SignServerProof a.frame.Data
        (L.WriteCryptoMessage L.TagSCFG (serverConfigEntries L W.kexPublicKey)) = .ok a.proof →
      (∀ e, L.WritePublicHeader
            { ConnectionID := a.publicHeader.ConnectionID, PacketNumber := 1,
              VersionFlag := false } = .error e →
        (main L W).outcome = .panicked (.err e) ∧
        (main L W).trace.filter Event.isSeal = [] ∧
        (main L W).trace.filter Event.isWriteToUDP
          = (a.negotiationEvents L W).filter Event.isWriteToUDP) ∧
      (L.WritePublicHeader
          { ConnectionID := a.publicHeader.ConnectionID, PacketNumber := 1,
            VersionFlag := false } = .ok a.headerBytes →
        Event.WritePublicHeader
            { ConnectionID := a.publicHeader.ConnectionID, PacketNumber := 1,
              VersionFlag := false }
            (.ok a.headerBytes) ∈ (main L W).trace ∧
        (main L W).trace.filter Event.isSeal =
          [.Seal 0 a.headerBytes
            ([0] ++ L.WriteAckFrame { LargestObserved := 1, Entropy := a.entropyAcc.Get }
              ++ L.WriteStreamFrame { StreamID := 1, Offset := 0, Data := a.serverReply L W })
            (L.Seal 0 a.headerBytes
              ([0] ++ L.WriteAckFrame { LargestObserved := 1, Entropy := a.entropyAcc.Get }
                ++ L.WriteStreamFrame
                  { StreamID := 1, Offset := 0, Data := a.serverReply L W }))] ∧
        writtenDatagrams (fromSeal (main L W).trace) =
          [a.headerBytes ++ L.Seal 0 a.headerBytes
            ([0] ++ L.WriteAckFrame { LargestObserved := 1, Entropy := a.entropyAcc.Get }
              ++ L.WriteStreamFrame
                { StreamID := 1, Offset := 0, Data := a.serverReply L W })])) :=
  ⟨fun e hs => main_of_sign_error L W a h hello e hs,
    fun hs =>
      ⟨fun e hw => main_of_header_error L W a ⟨h, hello, hs⟩ e hw,
        fun hw => main_reply L W a ⟨⟨h, hello, hs⟩, hw⟩⟩⟩

theorem helloAttempt_completed : helloAttempt.Completed sampleLib helloWorld :=
  ⟨⟨⟨⟨⟨⟨rfl, rfl, rfl, rfl, rfl⟩, rfl⟩, rfl, rfl, rfl, rfl⟩, rfl, rfl⟩, rfl⟩, rfl, rfl⟩

theorem unsignedAttempt_decoded : unsignedAttempt.Decoded sampleLib unsignedWorld :=
  ⟨⟨⟨rfl, rfl, rfl, rfl, rfl⟩, rfl⟩, rfl, rfl, rfl, rfl⟩

/-- C1, amended, at `helloWorld`: the packet decodes to a CHLO, signing and the
header of the reply succeed, and the one reply datagram is the ten header bytes
followed by the sealed payload. -/
theorem C1_reply_datagram_witness :
    helloAttempt.Decoded sampleLib helloWorld ∧
    helloAttempt.messageTag = sampleLib.TagCHLO ∧
    writtenDatagrams (fromSeal (main sampleLib helloWorld).trace) =
      [helloAttempt.headerBytes ++ sampleLib.Seal 0 helloAttempt.headerBytes
        ([0] ++ sampleLib.WriteAckFrame { LargestObserved := 1, Entropy := true }
          ++ sampleLib.WriteStreamFrame
            { StreamID := 1, Offset := 0, Data := helloAttempt.serverReply sampleLib helloWorld })] :=
  ⟨helloAttempt_completed.replied.signed.decoded, rfl,
    (((C1_reply_datagram sampleLib helloWorld helloAttempt
      helloAttempt_completed.replied.signed.decoded rfl).2 rfl).2 rfl).2.2⟩

/-- C1 as stated fails at `unsignedWorld`: the inbound packet parses, opens,
carries a STREAM frame and decodes to a message with tag CHLO, but
`SignServerProof` returns an error, main panics with it, and no reply datagram
is built or written. -/
theorem C1_counterexample :
    unsignedAttempt.Decoded sampleLib unsignedWorld ∧
    unsignedAttempt.messageTag = sampleLib.TagCHLO ∧
    (main sampleLib unsignedWorld).trace.filter Event.isSeal = [] ∧
    writtenDatagrams (main sampleLib unsignedWorld).trace = [] ∧
    (main sampleLib unsignedWorld).outcome = .panicked (.err "signing failure") :=
  ⟨unsignedAttempt_decoded, by decide, by decide, by decide, by decide⟩

/-! ## C2 : the tag check -/

theorem shloAttempt_decoded : shloAttempt.Decoded sampleLib shloWorld :=
  ⟨⟨⟨rfl, rfl, rfl, rfl, rfl⟩, rfl⟩, rfl, rfl, rfl, rfl⟩

/-- C2.  In every attempt in which the handshake message of the inbound packet
is decoded (`a.Decoded`, the decoded tag being `a.messageTag`): when the tag is
not `TagCHLO`, main panics with the string "expected CHLO", the decoding is the
last call of the run, `SignServerProof`, `WriteCryptoMessage` (no SCFG, no REJ)
and `Seal` are never called, and the only datagrams written are those of the
block of lines 53-64, before the tag check; when the tag is `TagCHLO`, the run
does not end in that panic. -/
theorem C2_tag_check (L : Lib) (W : World) (a : Attempt) (h : a.Decoded L W) :
    (a.messageTag ≠ L.TagCHLO →
      (main L W).outcome = .panicked (.str "expected CHLO") ∧
      (main L W).trace.getLast? =
        some (.ParseCryptoMessage a.frame.Data (.ok (a.messageTag, a.cryptoData))) ∧
      (main L W).trace.filter Event.isSignServerProof = [] ∧
      (main L W).trace.filter Event.isWriteCryptoMessage = [] ∧
      (main L W).trace.filter Event.isSeal = [] ∧
      (main L W).trace.filter Event.isWriteToUDP
        = (a.negotiationEvents L W).filter Event.isWriteToUDP) ∧
    (a.messageTag = L.TagCHLO → (main L W).outcome ≠ .panicked (.str "expected CHLO")) := by
  rw [main_of_decoded L W a h]
  refine ⟨fun hne => ?_, fun heq => ?_⟩
  · rw [if_pos hne]
    simp [Attempt.receivedEvents, Attempt.decodedEvents, Event.isSignServerProof,
      Event.isWriteCryptoMessage, Event.isSeal, Event.isWriteToUDP, List.getLast?_cons]
  · rw [if_neg (not_not.mpr heq)]
    simpa using reply_outcome L W _ _ _ _ _ _ _ _ "expected CHLO"

/-- C2 at `shloWorld`: the message decodes to tag SHLO and main panics with
"expected CHLO". -/
theorem C2_tag_check_witness :
    shloAttempt.Decoded sampleLib shloWorld ∧ shloAttempt.messageTag ≠ sampleLib.TagCHLO ∧
    (main sampleLib shloWorld).outcome = .panicked (.str "expected CHLO") :=
  ⟨shloAttempt_decoded, by decide,
    ((C2_tag_check sampleLib shloWorld shloAttempt shloAttempt_decoded).1 (by decide)).1⟩

/-! ## C3 : the Version Negotiation Packet -/

/-- The code after the `if` of lines 53-64 starts by calling `NullAEAD.Open` on
the reader as `ParsePublicHeader` left it, with the first `Size - Len` bytes of
the datagram as associated data. -/
theorem handshake_trace (L : Lib) (W : World) (keyData : KeyData) (publicHeader : PublicHeader)
    (r : Reader) (data : Bytes) (remoteAddr : UDPAddr) (nw : Nat) :
    ∃ rest, (handshake L W keyData publicHeader r data remoteAddr nw).trace =
      .Open 0 (data.take (r.Size - r.Len)) r (L.Open 0 (data.take (r.Size - r.Len)) r) :: rest := by
  simp only [handshake]
  split
  · next e he => exact ⟨[], by simp [he]⟩
  · next r2 he =>
    repeat' split
    all_goals simp [Run.after, he]

/-- The calls before the first `Open` are those of lines 22-64. -/
theorem beforeOpen_main (L : Lib) (W : World) (a : Attempt) (h : a.Negotiated L W) :
    beforeOpen (main L W).trace = a.receivedEvents W ++ a.negotiationEvents L W := by
  rw [main_of_negotiated L W a h]
  obtain ⟨rest, hrest⟩ := handshake_trace L W a.keyData a.publicHeader a.r a.data a.remoteAddr
    (a.writesBefore L W)
  simp only [beforeOpen, Run.after_trace, hrest]
  rw [takeWhile_not_append Event.isOpen _ _ (by simp [Attempt.receivedEvents, Event.isOpen])]
  simp [Event.isOpen]

/-- An attempt whose inbound header shows a version mismatch and whose
`WritePublicHeader` for the negotiation header fails: main panics with the error
and has written nothing. -/
theorem main_of_negotiation_error (L : Lib) (W : World) (a : Attempt) (h : a.Received L W)
    (hm : a.publicHeader.VersionFlag = true ∧ a.publicHeader.QuicVersion ≠ QuicVersion32)
    (e : Err)
    (he : L.WritePublicHeader
      { ConnectionID := a.publicHeader.ConnectionID, PacketNumber := 1, VersionFlag := true }
      = .error e) :
    main L W =
      ⟨a.receivedEvents W ++
          [.PrintSendingVersionNegotiationPacket,
            .WritePublicHeader
              { ConnectionID := a.publicHeader.ConnectionID, PacketNumber := 1,
                VersionFlag := true } (.error e)],
        .panicked (.err e)⟩ := by
  have hv : versionNegotiation L W a.publicHeader a.remoteAddr =
      ([.PrintSendingVersionNegotiationPacket,
          .WritePublicHeader
            { ConnectionID := a.publicHeader.ConnectionID, PacketNumber := 1,
              VersionFlag := true } (.error e)], some e) := by
    rcases versionNegotiation_cases L W a.publicHeader a.remoteAddr with
      ⟨hc, _⟩ | ⟨_, e2, he2, hv⟩ | ⟨_, b2, hb2, _⟩
    · simp [versionMismatch, hm.1, hm.2] at hc
    · rw [he] at he2; cases he2; exact hv
    · rw [he] at hb2; cases hb2
  rw [main_of_received L W a h]
  simp only [negotiate, hv]
  rfl

/-- The datagrams written before the payload is opened, when `WritePublicHeader`
returns `b` for the negotiation header. -/
theorem beforeOpen_writes (L : Lib) (W : World) (a : Attempt) (h : a.Received L W)
    (b : Bytes)
    (hb : L.WritePublicHeader
      { ConnectionID := a.publicHeader.ConnectionID, PacketNumber := 1, VersionFlag := true }
      = .ok b) :
    (beforeOpen (main L W).trace).filter Event.isWriteToUDP =
      (if a.publicHeader.VersionFlag = true ∧ a.publicHeader.QuicVersion ≠ QuicVersion32 then
        [.WriteToUDP (b ++ [0x51, 0x30, 0x33, 0x32]) a.remoteAddr (W.WriteToUDP 0)]
      else []) := by
  have hn : a.Negotiated L W := by
    refine ⟨h, ?_⟩
    rcases versionNegotiation_cases L W a.publicHeader a.remoteAddr with
      ⟨_, hv⟩ | ⟨_, e, he, _⟩ | ⟨_, b2, _, hv⟩
    · rw [hv]
    · rw [hb] at he; cases he
    · rw [hv]
  rw [beforeOpen_main L W a hn]
  rcases versionNegotiation_cases L W a.publicHeader a.remoteAddr with
    ⟨hc, hv⟩ | ⟨_, e, he, _⟩ | ⟨hc, b2, hb2, hv⟩
  · have hc2 : ¬(a.publicHeader.VersionFlag = true ∧
        a.publicHeader.QuicVersion ≠ QuicVersion32) := by
      simpa [versionMismatch] using hc
    simp [Attempt.negotiationEvents, hv, if_neg hc2, Attempt.receivedEvents,
      Event.isWriteToUDP]
  · rw [hb] at he; cases he
  · rw [hb] at hb2; cases hb2
    have hc2 : a.publicHeader.VersionFlag = true ∧
        a.publicHeader.QuicVersion ≠ QuicVersion32 := by
      simpa [versionMismatch] using hc
    have hq : WriteUint32BigEndian QuicVersion32 = [0x51, 0x30, 0x33, 0x32] := by decide
    simp [Attempt.negotiationEvents, hv, if_pos hc2, Attempt.receivedEvents,
      Event.isWriteToUDP, hq]

/-- C3, amended.  In every attempt whose inbound header parses (`a.Received`):
a datagram is written before the payload is opened if and only if the inbound
header has the version flag set and a version other than `QuicVersion32` and
`WritePublicHeader` returns no error for
`PublicHeader{ConnectionID: inbound id, PacketNumber: 1, VersionFlag: true}`.
When it returns `b`, the datagrams written there are none without a mismatch and
exactly one with a mismatch, sent to the remote address and made of `b` followed
by the four bytes 0x51 0x30 0x33 0x32, the big-endian encoding of
`QuicVersion32`.  When it returns an error and the versions differ, main panics
with that error and the run has written nothing.  `QuicVersion32` is
0x51303332, the big-endian value of 'Q','0','3','2', the last two bytes being
48+(32/10)%10 and 48+32%10. -/
theorem C3_version_negotiation (L : Lib) (W : World) (a : Attempt) (h : a.Received L W) :
    ((beforeOpen (main L W).trace).filter Event.isWriteToUDP ≠ [] ↔
      (a.publicHeader.VersionFlag = true ∧ a.publicHeader.QuicVersion ≠ QuicVersion32 ∧
        ∃ b, L.WritePublicHeader
          { ConnectionID := a.publicHeader.ConnectionID, PacketNumber := 1,
            VersionFlag := true } = .ok b)) ∧
    (∀ b, L.WritePublicHeader
        { ConnectionID := a.publicHeader.ConnectionID, PacketNumber := 1,
          VersionFlag := true } = .ok b →
      (beforeOpen (main L W).trace).filter Event.isWriteToUDP =
        (if a.publicHeader.VersionFlag = true ∧ a.publicHeader.QuicVersion ≠ QuicVersion32
          then [.WriteToUDP (b ++ [0x51, 0x30, 0x33, 0x32]) a.remoteAddr (W.WriteToUDP 0)]
          else [])) ∧
    (∀ e, L.WritePublicHeader
        { ConnectionID := a.publicHeader.ConnectionID, PacketNumber := 1,
          VersionFlag := true } = .error e →
      a.publicHeader.VersionFlag = true ∧ a.publicHeader.QuicVersion ≠ QuicVersion32 →
      (main L W).outcome = .panicked (.err e) ∧
      (main L W).trace.filter Event.isWriteToUDP = [] ∧
      (main L W).trace.filter Event.isOpen = []) ∧
    WriteUint32BigEndian QuicVersion32 = [0x51, 0x30, 0x33, 0x32] ∧
    QuicVersion32 = 0x51303332 ∧
    QuicVersion32 = (ReadUint32BigEndian
      (NewReader [Char.toNat 'Q', Char.toNat '0', Char.toNat '3', Char.toNat '2'])).1 ∧
    48 + (QuicVersionNumber32 / 10) % 10 = Char.toNat '3' ∧
    48 + QuicVersionNumber32 % 10 = Char.toNat '2' := by
  refine ⟨?_, fun b hb => beforeOpen_writes L W a h b hb, fun e he hm => ?_,
    by decide, by decide, by decide, by decide, by decide⟩
  · by_cases hm : a.publicHeader.VersionFlag = true ∧
        a.publicHeader.QuicVersion ≠ QuicVersion32
    · cases hw : L.WritePublicHeader
          { ConnectionID := a.publicHeader.ConnectionID, PacketNumber := 1,
            VersionFlag := true } with
      | error e =>
        rw [main_of_negotiation_error L W a h hm e hw]
        simp [beforeOpen, Attempt.receivedEvents, Event.isOpen, Event.isWriteToUDP,
          List.takeWhile]
      | ok b =>
        rw [beforeOpen_writes L W a h b hw, if_pos hm]
        simp [hm.1, hm.2]
    · have hn : a.Negotiated L W := by
        refine ⟨h, ?_⟩
        rcases versionNegotiation_cases L W a.publicHeader a.remoteAddr with
          ⟨_, hv⟩ | ⟨hc, _, _, _⟩ | ⟨hc, _, _, _⟩
        · rw [hv]
        · exact absurd (by simpa [versionMismatch] using hc) hm
        · exact absurd (by simpa [versionMismatch] using hc) hm
      have hv : versionNegotiation L W a.publicHeader a.remoteAddr = ([], none) := by
        rcases versionNegotiation_cases L W a.publicHeader a.remoteAddr with
          ⟨_, hv⟩ | ⟨hc, _, _, _⟩ | ⟨hc, _, _, _⟩
        · exact hv
        · exact absurd (by simpa [versionMismatch] using hc) hm
        · exact absurd (by simpa [versionMismatch] using hc) hm
      rw [beforeOpen_main L W a hn]
      constructor
      · intro hne
        exact absurd (by simp [Attempt.negotiationEvents, hv, Attempt.receivedEvents,
          Event.isWriteToUDP]) hne
      · rintro ⟨h1, h2, _⟩
        exact absurd ⟨h1, h2⟩ hm
  · rw [main_of_negotiation_error L W a h hm e he]
    simp [Attempt.receivedEvents, Event.isWriteToUDP, Event.isOpen]

theorem mismatchAttempt_completed : mismatchAttempt.Completed sampleLib mismatchWorld :=
  ⟨⟨⟨⟨⟨⟨rfl, rfl, rfl, rfl, rfl⟩, rfl⟩, rfl, rfl, rfl, rfl⟩, rfl, rfl⟩, rfl⟩, rfl, rfl⟩

/-- C3, amended, at `mismatchWorld`: the client speaks Q031, the header of the
negotiation packet is written, and a datagram is written before the payload is
opened. -/
theorem C3_version_negotiation_witness :
    mismatchAttempt.Received sampleLib mismatchWorld ∧
    sampleLib.WritePublicHeader
      { ConnectionID := mismatchAttempt.publicHeader.ConnectionID, PacketNumber := 1,
        VersionFlag := true } = .ok [0x0D, 1, 2, 3, 4, 5, 6, 7, 8, 1] ∧
    (beforeOpen (main sampleLib mismatchWorld).trace).filter Event.isWriteToUDP ≠ [] :=
  ⟨mismatchAttempt_completed.replied.signed.decoded.negotiated.received, rfl,
    (C3_version_negotiation sampleLib mismatchWorld mismatchAttempt
      mismatchAttempt_completed.replied.signed.decoded.negotiated.received).1.mpr
      ⟨by decide, by decide, [0x0D, 1, 2, 3, 4, 5, 6, 7, 8, 1], rfl⟩⟩

/-- C3 as stated fails at `mismatchWorld` with a library whose
`WritePublicHeader` returns an error: the parsed inbound header has the version
flag set and version Q031, other than `QuicVersion32`, yet no datagram is
written; main panics with the error of `WritePublicHeader` (lines 58-61). -/
theorem C3_counterexample :
    mismatchAttempt.Received failingHeaderLib mismatchWorld ∧
    mismatchAttempt.publicHeader.VersionFlag = true ∧
    mismatchAttempt.publicHeader.QuicVersion ≠ QuicVersion32 ∧
    (main failingHeaderLib mismatchWorld).trace.filter Event.isWriteToUDP = [] ∧
    (main failingHeaderLib mismatchWorld).outcome = .panicked (.err "header write failure") :=
  ⟨⟨rfl, rfl, rfl, rfl, rfl⟩, by decide, by decide, by decide, by decide⟩

/-! ## C4 : after the Version Negotiation Packet -/

/-- C4 as stated fails at `mismatchWorld`: the inbound header has the version
flag set and version Q031, the Version Negotiation Packet is written, and then
`Open`, `ParseStreamFrame`, `ParseCryptoMessage` and `SignServerProof` are each
called once, a second datagram (the REJ reply) is written from the `Seal` call
on, and main returns. -/
theorem C4_counterexample :
    mismatchAttempt.Received sampleLib mismatchWorld ∧
    mismatchAttempt.publicHeader.VersionFlag = true ∧
    mismatchAttempt.publicHeader.QuicVersion ≠ QuicVersion32 ∧
    writtenDatagrams (beforeOpen (main sampleLib mismatchWorld).trace) =
      [[0x0D, 1, 2, 3, 4, 5, 6, 7, 8, 1, 0x51, 0x30, 0x33, 0x32]] ∧
    ((main sampleLib mismatchWorld).trace.filter Event.isOpen).length = 1 ∧
    ((main sampleLib mismatchWorld).trace.filter Event.isParseStreamFrame).length = 1 ∧
    ((main sampleLib mismatchWorld).trace.filter Event.isParseCryptoMessage).length = 1 ∧
    ((main sampleLib mismatchWorld).trace.filter Event.isSignServerProof).length = 1 ∧
    (writtenDatagrams (fromSeal (main sampleLib mismatchWorld).trace)).length = 1 ∧
    (writtenDatagrams (main sampleLib mismatchWorld).trace).length = 2 ∧
    (main sampleLib mismatchWorld).outcome = .returned :=
  ⟨mismatchAttempt_completed.replied.signed.decoded.negotiated.received,
    by decide, by decide, by decide, by decide, by decide, by decide, by decide, by decide,
    by decide, by decide⟩

/-- C4, amended.  In every attempt whose inbound header parses with the version
flag set and a version other than `QuicVersion32` (`WritePublicHeader` returning
`b` for the header of the Version Negotiation Packet), the attempt does not end
with the Version Negotiation Packet: the call that follows its `WriteToUDP` is
`NullAEAD.Open` on the payload of the same packet, with that packet's header
bytes as associated data; and when the attempt gets through signing and the
header of the reply (`a.Replied`), exactly two datagrams are written, the Version
Negotiation Packet and then the sealed REJ reply. -/
theorem C4_processing_continues (L : Lib) (W : World) (a : Attempt) (h : a.Received L W)
    (hm : a.publicHeader.VersionFlag = true ∧ a.publicHeader.QuicVersion ≠ QuicVersion32)
    (b : Bytes)
    (hb : L.WritePublicHeader
      { ConnectionID := a.publicHeader.ConnectionID, PacketNumber := 1, VersionFlag := true }
      = .ok b) :
    (∃ rest, (main L W).trace =
      a.receivedEvents W ++
        [.PrintSendingVersionNegotiationPacket,
          .WritePublicHeader
            { ConnectionID := a.publicHeader.ConnectionID, PacketNumber := 1,
              VersionFlag := true } (.ok b),
          .WriteUint32BigEndian QuicVersion32,
          .WriteToUDP (b ++ WriteUint32BigEndian QuicVersion32) a.remoteAddr (W.WriteToUDP 0),
          .Open 0 a.associatedData a.r (L.Open 0 a.associatedData a.r)] ++ rest) ∧
    (a.Replied L W →
      writtenDatagrams (main L W).trace =
        [b ++ WriteUint32BigEndian QuicVersion32,
          a.headerBytes ++ L.Seal 0 a.headerBytes (a.replyFrame L W)]) := by
  have hv : versionNegotiation L W a.publicHeader a.remoteAddr =
      ([.PrintSendingVersionNegotiationPacket,
          .WritePublicHeader
            { ConnectionID := a.publicHeader.ConnectionID, PacketNumber := 1,
              VersionFlag := true } (.ok b),
          .WriteUint32BigEndian QuicVersion32,
          .WriteToUDP (b ++ WriteUint32BigEndian QuicVersion32) a.remoteAddr (W.WriteToUDP 0)],
        none) := by
    rcases versionNegotiation_cases L W a.publicHeader a.remoteAddr with
      ⟨hc, _⟩ | ⟨_, e, he, _⟩ | ⟨_, b2, hb2, hv⟩
    · simp [versionMismatch, hm.1, hm.2] at hc
    · rw [hb] at he; cases he
    · rw [hb] at hb2; cases hb2; exact hv
  have hn : a.Negotiated L W := ⟨h, by rw [hv]⟩
  refine ⟨?_, fun hr => ?_⟩
  · obtain ⟨rest, hrest⟩ := handshake_trace L W a.keyData a.publicHeader a.r a.data
      a.remoteAddr (a.writesBefore L W)
    refine ⟨rest, ?_⟩
    rw [main_of_negotiated L W a hn]
    simp only [Run.after_trace, hrest, Attempt.negotiationEvents, hv, Attempt.associatedData]
    simp
  · rw [main_of_replied L W a hr]
    simp only [Run.after_trace, writtenDatagrams_append, secondPacket_written,
      Attempt.negotiationEvents, hv]
    simp [writtenDatagrams, Attempt.receivedEvents, Attempt.decodedEvents,
      Attempt.signedEvents, Attempt.sentEvents]

/-- C4, amended, at `mismatchWorld`: two datagrams are written. -/
theorem C4_processing_continues_witness :
    mismatchAttempt.Received sampleLib mismatchWorld ∧
    (mismatchAttempt.publicHeader.VersionFlag = true ∧
      mismatchAttempt.publicHeader.QuicVersion ≠ QuicVersion32) ∧
    mismatchAttempt.Replied sampleLib mismatchWorld ∧
    writtenDatagrams (main sampleLib mismatchWorld).trace =
      [[0x0D, 1, 2, 3, 4, 5, 6, 7, 8, 1] ++ WriteUint32BigEndian QuicVersion32,
        mismatchAttempt.headerBytes ++ sampleLib.Seal 0 mismatchAttempt.headerBytes
          (mismatchAttempt.replyFrame sampleLib mismatchWorld)] :=
  ⟨mismatchAttempt_completed.replied.signed.decoded.negotiated.received,
    ⟨by decide, by decide⟩, mismatchAttempt_completed.replied,
    (C4_processing_continues sampleLib mismatchWorld mismatchAttempt
      mismatchAttempt_completed.replied.signed.decoded.negotiated.received
      ⟨by decide, by decide⟩ [0x0D, 1, 2, 3, 4, 5, 6, 7, 8, 1] rfl).2
      mismatchAttempt_completed.replied⟩

/-- What lines 134-154 call: no signing, no message writing, no frame parsing,
no accumulator access. -/
theorem send_filter (a : Attempt) (L : Lib) (W : World) (p : Event → Bool)
    (h0 : ∀ x r, p (.WritePublicHeader x r) = false)
    (h1 : ∀ n x y z, p (.Seal n x y z) = false)
    (h2 : ∀ x y z, p (.WriteToUDP x y z) = false)
    (h3 : ∀ n r, p (.ReadFromUDP n r) = false)
    (h4 : ∀ i r q, p (.ParsePublicHeader i r q) = false)
    (h5 : ∀ h, p (.PrintPublicHeader h) = false) :
    (a.send L W).trace.filter p = [] := by
  simp only [Attempt.send]
  split
  · simp [h0]
  · simp [h0, h1, h2, secondPacket_filter L W a.data p h3 h4 h5]

/-! ## C5 : what is signed and what the REJ message holds -/

/-- C5.  In every attempt that gets as far as signing (`a.Signed`; every attempt
that sends its reply or returns is one): `SignServerProof` is called exactly
once, on the `Data` of the one parsed inbound STREAM frame and the serialized
SCFG message, and returns `proof`; `WriteCryptoMessage` is called exactly twice,
for the SCFG message and then for the REJ message, the latter with exactly the
three entries SCFG, CERT, PROF, where the SCFG entry is the very bytes that were
signed, CERT is `GetCERTdata()` and PROF is that proof. -/
theorem C5_proof_and_rej (L : Lib) (W : World) (a : Attempt) (h : a.Signed L W) :
    (main L W).trace.filter Event.isParseStreamFrame = [.ParseStreamFrame a.r3 (.ok a.frame)] ∧
    a.keyData.SignServerProof a.frame.Data
      (L.WriteCryptoMessage L.TagSCFG (serverConfigEntries L W.kexPublicKey)) = .ok a.proof ∧
    (main L W).trace.filter Event.isSignServerProof =
      [.SignServerProof a.frame.Data
        (L.WriteCryptoMessage L.TagSCFG (serverConfigEntries L W.kexPublicKey)) (.ok a.proof)] ∧
    (main L W).trace.filter Event.isWriteCryptoMessage =
      [.WriteCryptoMessage L.TagSCFG (serverConfigEntries L W.kexPublicKey)
          (L.WriteCryptoMessage L.TagSCFG (serverConfigEntries L W.kexPublicKey)),
        .WriteCryptoMessage L.TagREJ
          [(L.TagSCFG, L.WriteCryptoMessage L.TagSCFG (serverConfigEntries L W.kexPublicKey)),
            (L.TagCERT, a.keyData.GetCERTdata), (L.TagPROF, a.proof)]
          (L.WriteCryptoMessage L.TagREJ
            [(L.TagSCFG, L.WriteCryptoMessage L.TagSCFG (serverConfigEntries L W.kexPublicKey)),
              (L.TagCERT, a.keyData.GetCERTdata), (L.TagPROF, a.proof)])] := by
  rw [main_of_signed L W a h]
  refine ⟨?_, h.signed, ?_, ?_⟩
  · simp [Attempt.receivedEvents, Attempt.decodedEvents, Attempt.signedEvents,
      Event.isParseStreamFrame,
      send_filter a L W Event.isParseStreamFrame (fun _ _ => rfl) (fun _ _ _ _ => rfl)
        (fun _ _ _ => rfl) (fun _ _ => rfl) (fun _ _ _ => rfl) (fun _ => rfl)]
  · simp [Attempt.receivedEvents, Attempt.decodedEvents, Attempt.signedEvents,
      Event.isSignServerProof, serverConfigMessage,
      send_filter a L W Event.isSignServerProof (fun _ _ => rfl) (fun _ _ _ _ => rfl)
        (fun _ _ _ => rfl) (fun _ _ => rfl) (fun _ _ _ => rfl) (fun _ => rfl)]
  · simp [Attempt.receivedEvents, Attempt.decodedEvents, Attempt.signedEvents,
      Event.isWriteCryptoMessage, serverConfigMessage, Attempt.serverReply, rejMessage,
      send_filter a L W Event.isWriteCryptoMessage (fun _ _ => rfl) (fun _ _ _ _ => rfl)
        (fun _ _ _ => rfl) (fun _ _ => rfl) (fun _ _ _ => rfl) (fun _ => rfl)]

/-- C5 at `helloWorld`: the proof in the REJ message is the two bytes the sample
key data signs with. -/
theorem C5_proof_and_rej_witness :
    helloAttempt.Signed sampleLib helloWorld ∧
    (main sampleLib helloWorld).trace.filter Event.isSignServerProof =
      [.SignServerProof helloAttempt.frame.Data
        (sampleLib.WriteCryptoMessage sampleLib.TagSCFG
          (serverConfigEntries sampleLib helloWorld.kexPublicKey)) (.ok [0x51, 0x52])] :=
  ⟨helloAttempt_completed.replied.signed,
    (C5_proof_and_rej sampleLib helloWorld helloAttempt
      helloAttempt_completed.replied.signed).2.2.1⟩

/-! ## C6 : the associated data -/

/-- The one `Seal` call of an attempt that replies. -/
theorem replied_seal_calls (L : Lib) (W : World) (a : Attempt) (h : a.Replied L W) :
    (main L W).trace.filter Event.isSeal =
      [.Seal 0 a.headerBytes (a.replyFrame L W) (L.Seal 0 a.headerBytes (a.replyFrame L W))] := by
  rw [main_of_replied L W a h]
  simp [Attempt.receivedEvents, Attempt.decodedEvents, Attempt.signedEvents,
    Attempt.sentEvents, Event.isSeal]

/-- The datagrams written from the `Seal` call on, in an attempt that replies. -/
theorem replied_fromSeal (L : Lib) (W : World) (a : Attempt) (h : a.Replied L W) :
    writtenDatagrams (fromSeal (main L W).trace) =
      [a.headerBytes ++ L.Seal 0 a.headerBytes (a.replyFrame L W)] := by
  rw [main_of_replied L W a h]
  have hp : (a.receivedEvents W ++ a.negotiationEvents L W ++ a.decodedEvents
      ++ a.signedEvents L W).filter Event.isSeal = [] := by
    simp [Attempt.receivedEvents, Attempt.decodedEvents, Attempt.signedEvents, Event.isSeal]
  simp only [fromSeal, Run.after_trace]
  rw [List.append_assoc _ (a.sentEvents L W), dropWhile_not_append Event.isSeal _ _ hp]
  simp [Attempt.sentEvents, Event.isSeal, writtenDatagrams]
  simpa [writtenDatagrams] using secondPacket_written L W a.data

/-- The code after the `if` of lines 53-64 calls `Open` once. -/
theorem handshake_filter_isOpen (L : Lib) (W : World) (keyData : KeyData)
    (publicHeader : PublicHeader) (r : Reader) (data : Bytes) (remoteAddr : UDPAddr) (nw : Nat) :
    (handshake L W keyData publicHeader r data remoteAddr nw).trace.filter Event.isOpen =
      [.Open 0 (data.take (r.Size - r.Len)) r (L.Open 0 (data.take (r.Size - r.Len)) r)] := by
  simp only [handshake, reply]
  repeat' split
  all_goals simp_all [Run.after, Event.isOpen]

/-- What `Size - Len` cuts off a slice: the bytes before the unread part. -/
theorem Reader.take_append_unread (r : Reader) :
    r.s.take (r.Size - r.Len) ++ r.unread = r.s := by
  simp only [Reader.Size, Reader.Len, Reader.unread]
  split
  · next hge => simp [List.drop_of_length_le hge]
  · next hlt =>
    have : r.s.length - (r.s.length - r.i) = r.i := by omega
    rw [this, List.take_append_drop]

theorem Reader.size_sub_len_le (r : Reader) : r.Size - r.Len ≤ r.s.length := by
  simp only [Reader.Size]; omega

/-- C6.  In every attempt that reaches line 66 (`a.Negotiated`), `Open` is
called exactly once, on the reader `r` over the inbound datagram `data` as
`ParsePublicHeader` left it, and its associated data is `data[0 : Size-Len]`:
the slice bounds lie within the datagram, its length is the number of bytes no
longer unread (the read position when that lies within the datagram), it is a
start of the datagram, and followed by the unread bytes it is the whole datagram.
In every attempt that sends its reply (`a.Replied`), `Seal` is called exactly
once, its associated data is exactly the bytes `WritePublicHeader` returned for
the header of the reply, and the one datagram written from then on begins with
those bytes, followed by what `Seal` appended. -/
theorem C6_associated_data (L : Lib) (W : World) (a : Attempt) (h : a.Negotiated L W) :
    ((main L W).trace.filter Event.isOpen =
        [.Open 0 a.associatedData a.r (L.Open 0 a.associatedData a.r)] ∧
      a.r.s = a.data ∧
      L.ParsePublicHeader (NewReader a.data) = (.ok a.publicHeader, a.r.i) ∧
      a.associatedData = a.data.take (a.r.Size - a.r.Len) ∧
      a.r.Size - a.r.Len ≤ a.data.length ∧
      a.associatedData.length = a.data.length - a.r.Len ∧
      (a.r.i ≤ a.data.length → a.associatedData.length = a.r.i) ∧
      a.associatedData <+: a.data ∧
      a.associatedData ++ a.r.unread = a.data) ∧
    (a.Replied L W →
      L.WritePublicHeader a.responsePublicHeader = .ok a.headerBytes ∧
      (main L W).trace.filter Event.isSeal =
        [.Seal 0 a.headerBytes (a.replyFrame L W) (L.Seal 0 a.headerBytes (a.replyFrame L W))] ∧
      writtenDatagrams (fromSeal (main L W).trace) =
        [a.headerBytes ++ L.Seal 0 a.headerBytes (a.replyFrame L W)] ∧
      a.headerBytes <+: a.headerBytes ++ L.Seal 0 a.headerBytes (a.replyFrame L W)) := by
  refine ⟨⟨?_, rfl, h.received.parsed, rfl, Reader.size_sub_len_le a.r, ?_, ?_, ?_,
    Reader.take_append_unread a.r⟩, fun hr => ⟨hr.headerWritten, replied_seal_calls L W a hr,
      replied_fromSeal L W a hr, List.prefix_append _ _⟩⟩
  · rw [main_of_negotiated L W a h]
    simp [handshake_filter_isOpen, Attempt.receivedEvents, Event.isOpen, Attempt.associatedData]
  · have := Reader.size_sub_len_le a.r
    simp only [Attempt.associatedData, List.length_take, Reader.Size] at this ⊢
    have hs : a.r.s = a.data := rfl
    rw [hs] at this ⊢
    omega
  · intro hle
    have hs : a.r.s = a.data := rfl
    simp only [Attempt.associatedData, List.length_take, Reader.Size, Reader.Len]
    rw [hs]
    split <;> omega
  · exact ⟨a.r.unread, Reader.take_append_unread a.r⟩

/-- C6 at `helloWorld`: the associated data of `Open` is the 14 bytes of the
inbound public header. -/
theorem C6_associated_data_witness :
    helloAttempt.Negotiated sampleLib helloWorld ∧
    (main sampleLib helloWorld).trace.filter Event.isOpen =
      [.Open 0 [0x0D, 1, 2, 3, 4, 5, 6, 7, 8, 0x51, 0x30, 0x33, 0x32, 1] helloAttempt.r
        (sampleLib.Open 0 helloAttempt.associatedData helloAttempt.r)] :=
  ⟨helloAttempt_completed.replied.signed.decoded.negotiated,
    (C6_associated_data sampleLib helloWorld helloAttempt
      helloAttempt_completed.replied.signed.decoded.negotiated).1.1⟩

/-! ## C7 : the entropy accumulator -/

theorem entropyBit_eq (x : Nat) : decide ((x &&& 0x01) > 0) = decide (x % 2 = 1) := by
  rw [Nat.and_one_is_mod]
  rcases Nat.mod_two_eq_zero_or_one x with h | h <;> simp [h]

/-- C7.  In every attempt that gets as far as building the reply ACK frame
(`a.Signed`): the private flag byte read from the opened payload is
`a.privateFlag`; the accumulator calls of the run are exactly one `Add`, with the
packet number of the inbound header and the low bit of that byte, followed by
exactly one `Get`; the accumulator read is the fresh zero-valued one after that
one `Add`; the one ACK frame written has `LargestObserved` 1 and the value of
`Get` as `Entropy`; and, `Add` being XOR into the parity, that `Entropy` is true
if and only if the low bit of the private flag byte is 1, two bytes with the
same low bit giving the same bit whatever their other seven bits. -/
theorem C7_entropy (L : Lib) (W : World) (a : Attempt) (h : a.Signed L W) :
    Event.ReadByte (.ok (a.privateFlag, a.r3)) ∈ (main L W).trace ∧
    (main L W).trace.filter (fun e => e.isEntropyAdd || e.isEntropyGet) =
      [.EntropyAdd a.publicHeader.PacketNumber (decide (a.privateFlag % 2 = 1)),
        .EntropyGet a.entropyAcc.Get] ∧
    a.entropyAcc =
      ({ accumulatedParity := false } : EntropyAccumulator).Add a.publicHeader.PacketNumber
        (decide (a.privateFlag % 2 = 1)) ∧
    (main L W).trace.filter Event.isWriteAckFrame =
      [.WriteAckFrame { LargestObserved := 1, Entropy := a.entropyAcc.Get }
        (L.WriteAckFrame { LargestObserved := 1, Entropy := a.entropyAcc.Get })] ∧
    (a.entropyAcc.Get = true ↔ a.privateFlag % 2 = 1) ∧
    (∀ x y : Nat, x % 2 = y % 2 →
      decide ((x &&& 0x01) > 0) = decide ((y &&& 0x01) > 0)) := by
  have hbit : a.entropyBit = decide (a.privateFlag % 2 = 1) := entropyBit_eq a.privateFlag
  rw [main_of_signed L W a h]
  refine ⟨?_, ?_, ?_, ?_, ?_, ?_⟩
  · simp [Attempt.decodedEvents]
  · have h1 := versionNegotiation_filter L W a.publicHeader a.remoteAddr
      (fun e => e.isEntropyAdd || e.isEntropyGet)
      (fun e he => by cases e <;> first | rfl | cases he)
    have h2 := send_filter a L W (fun e => e.isEntropyAdd || e.isEntropyGet)
      (fun _ _ => rfl) (fun _ _ _ _ => rfl) (fun _ _ _ => rfl) (fun _ _ => rfl)
      (fun _ _ _ => rfl) (fun _ => rfl)
    simp only [Run.after_trace, List.filter_append, Attempt.negotiationEvents, h1, h2]
    simp [Attempt.receivedEvents, Attempt.decodedEvents, Attempt.signedEvents,
      Event.isEntropyAdd, Event.isEntropyGet, hbit]
  · simp [Attempt.entropyAcc, hbit]
  · simp [Attempt.receivedEvents, Attempt.decodedEvents, Attempt.signedEvents,
      Event.isWriteAckFrame,
      send_filter a L W Event.isWriteAckFrame (fun _ _ => rfl) (fun _ _ _ _ => rfl)
        (fun _ _ _ => rfl) (fun _ _ => rfl) (fun _ _ _ => rfl) (fun _ => rfl)]
  · simp [Attempt.entropyAcc, EntropyAccumulator.Add, EntropyAccumulator.Get, hbit]
  · intro x y hxy
    rw [entropyBit_eq, entropyBit_eq, hxy]

/-- C7 at `helloWorld`: the private flag byte is 1 and the reply ACK has entropy
true. -/
theorem C7_entropy_witness :
    helloAttempt.Signed sampleLib helloWorld ∧ helloAttempt.privateFlag % 2 = 1 ∧
    helloAttempt.entropyAcc.Get = true :=
  ⟨helloAttempt_completed.replied.signed, by decide,
    (C7_entropy sampleLib helloWorld helloAttempt
      helloAttempt_completed.replied.signed).2.2.2.2.1.mpr (by decide)⟩

/-! ## C8 : a failing write -/

@[simp] theorem withWriteErrors_LoadKeyData (W : World) (f : Nat → Option Err) :
    (W.withWriteErrors f).LoadKeyData = W.LoadKeyData := rfl

@[simp] theorem withWriteErrors_ResolveUDPAddr (W : World) (f : Nat → Option Err) :
    (W.withWriteErrors f).ResolveUDPAddr = W.ResolveUDPAddr := rfl

@[simp] theorem withWriteErrors_ListenUDP (W : World) (f : Nat → Option Err) :
    (W.withWriteErrors f).ListenUDP = W.ListenUDP := rfl

@[simp] theorem withWriteErrors_ReadFromUDP (W : World) (f : Nat → Option Err) :
    (W.withWriteErrors f).ReadFromUDP = W.ReadFromUDP := rfl

@[simp] theorem withWriteErrors_kexPublicKey (W : World) (f : Nat → Option Err) :
    (W.withWriteErrors f).kexPublicKey = W.kexPublicKey := rfl

@[simp] theorem withWriteErrors_examplePath (W : World) (f : Nat → Option Err) :
    examplePath (W.withWriteErrors f) = examplePath W := rfl

@[simp] theorem secondPacket_withWriteErrors (L : Lib) (W : World) (f : Nat → Option Err)
    (buf : Bytes) : secondPacket L (W.withWriteErrors f) buf = secondPacket L W buf := rfl

theorem versionNegotiation_withWriteErrors (L : Lib) (W : World) (f : Nat → Option Err)
    (h : PublicHeader) (a : UDPAddr) :
    (versionNegotiation L (W.withWriteErrors f) h a).2 = (versionNegotiation L W h a).2 ∧
    (versionNegotiation L (W.withWriteErrors f) h a).1.map Event.dropWriteErr
      = (versionNegotiation L W h a).1.map Event.dropWriteErr ∧
    (versionNegotiation L (W.withWriteErrors f) h a).1.countP Event.isWriteToUDP
      = (versionNegotiation L W h a).1.countP Event.isWriteToUDP := by
  simp only [versionNegotiation]
  split
  · split <;> simp [Event.dropWriteErr, Event.isWriteToUDP]
  · simp

theorem reply_withWriteErrors (L : Lib) (W : World) (f : Nat → Option Err) (keyData : KeyData)
    (publicHeader : PublicHeader) (frame : StreamFrame) (cryptoData : List (Tag × Bytes))
    (entropyAcc : EntropyAccumulator) (remoteAddr : UDPAddr) (data : Bytes) (nw : Nat) :
    (reply L (W.withWriteErrors f) keyData publicHeader frame cryptoData entropyAcc remoteAddr
        data nw).outcome
      = (reply L W keyData publicHeader frame cryptoData entropyAcc remoteAddr data nw).outcome ∧
    (reply L (W.withWriteErrors f) keyData publicHeader frame cryptoData entropyAcc remoteAddr
        data nw).trace.map Event.dropWriteErr
      = (reply L W keyData publicHeader frame cryptoData entropyAcc remoteAddr data
          nw).trace.map Event.dropWriteErr := by
  simp only [reply, withWriteErrors_kexPublicKey, secondPacket_withWriteErrors]
  split
  · simp
  · split <;> simp [Event.dropWriteErr]

theorem handshake_withWriteErrors (L : Lib) (W : World) (f : Nat → Option Err)
    (keyData : KeyData) (publicHeader : PublicHeader) (r : Reader) (data : Bytes)
    (remoteAddr : UDPAddr) (nw : Nat) :
    (handshake L (W.withWriteErrors f) keyData publicHeader r data remoteAddr nw).outcome
      = (handshake L W keyData publicHeader r data remoteAddr nw).outcome ∧
    (handshake L (W.withWriteErrors f) keyData publicHeader r data remoteAddr
        nw).trace.map Event.dropWriteErr
      = (handshake L W keyData publicHeader r data remoteAddr nw).trace.map
          Event.dropWriteErr := by
  simp only [handshake]
  repeat' split
  all_goals simp [reply_withWriteErrors]

/-- What the code does with the result of `WriteToUDP` (lines 63 and 141): it is
dropped.  Whatever errors the writes of a run return, the run makes the same
calls, with the same arguments and the same results apart from those errors, and
ends the same way. -/
theorem writeToUDP_result_dropped (L : Lib) (W : World) (writeErr : Nat → Option Err) :
    (main L (W.withWriteErrors writeErr)).outcome = (main L W).outcome ∧
    (main L (W.withWriteErrors writeErr)).trace.map Event.dropWriteErr
      = (main L W).trace.map Event.dropWriteErr := by
  simp only [main, negotiate, withWriteErrors_LoadKeyData, withWriteErrors_ResolveUDPAddr,
    withWriteErrors_ListenUDP, withWriteErrors_ReadFromUDP, withWriteErrors_examplePath]
  repeat' split
  all_goals simp_all [versionNegotiation_withWriteErrors, handshake_withWriteErrors]

/-- C8, the code at the failing input `unreachableWorld`: both `WriteToUDP`
calls return an error; after the first of them main still opens the payload and
seals a reply, and after the second it still performs the second `ReadFromUDP`
and the second `ParsePublicHeader`, and returns.  The claim (and spec section 7)
has the attempt aborted at the failed write, as every other call of main is. -/
theorem C8_failed_write_not_aborted :
    ((main sampleLib unreachableWorld).trace.filter Event.isWriteToUDP).map Event.writeErr =
      [some "network is unreachable", some "network is unreachable"] ∧
    ((main sampleLib unreachableWorld).trace.filter Event.isOpen).length = 1 ∧
    ((main sampleLib unreachableWorld).trace.filter Event.isSeal).length = 1 ∧
    afterLastWrite (main sampleLib unreachableWorld).trace =
      [.ReadFromUDP 56 (.datagram secondClientPacket clientAddr),
        .ParsePublicHeader secondClientPacket
          (.ok { ConnectionID := 0x0807060504030201, PacketNumber := 2 }) 10,
        .PrintPublicHeader { ConnectionID := 0x0807060504030201, PacketNumber := 2 }] ∧
    ((main sampleLib unreachableWorld).trace.filter Event.isReadFromUDP).length = 2 ∧
    ((main sampleLib unreachableWorld).trace.filter Event.isParsePublicHeader).length = 2 ∧
    (main sampleLib unreachableWorld).outcome = .returned := by
  refine ⟨by decide, by decide, by decide, by decide, by decide, by decide, by decide⟩

/-! ## C9 : reads and writes of a complete run -/

/-- C9 as stated fails at `helloWorld`: the client speaks the server's version,
main runs to completion, and it performs two reads but only one write. -/
theorem C9_counterexample :
    (main sampleLib helloWorld).outcome = .returned ∧
    helloAttempt.publicHeader.QuicVersion = QuicVersion32 ∧
    ((main sampleLib helloWorld).trace.filter Event.isReadFromUDP).length = 2 ∧
    ((main sampleLib helloWorld).trace.filter Event.isWriteToUDP).length = 1 := by
  refine ⟨by decide, by decide, by decide, by decide⟩

/-- C9, amended.  Every run of main that returns went through every line with
some values `a` (`a.Completed`), and its reads and writes are, in order: the
first read; one write (the Version Negotiation Packet) if and only if the
inbound header has the version flag set and a version other than
`QuicVersion32`; the write of the reply; the second read.  So it performs
exactly two reads, and two writes when the versions differ but one write when
they do not; and after the second read it only parses the public header of the
second packet and prints it, with no further write. -/
theorem C9_reads_and_writes (L : Lib) (W : World) (h : (main L W).outcome = .returned) :
    ∃ a : Attempt, a.Completed L W ∧
      ((main L W).trace.filter (fun e => e.isReadFromUDP || e.isWriteToUDP)).map
          Event.isReadFromUDP =
        (if a.publicHeader.VersionFlag = true ∧ a.publicHeader.QuicVersion ≠ QuicVersion32
          then [true, false, false, true] else [true, false, true]) ∧
      ((main L W).trace.filter Event.isReadFromUDP).length = 2 ∧
      ((main L W).trace.filter Event.isWriteToUDP).length =
        (if a.publicHeader.VersionFlag = true ∧ a.publicHeader.QuicVersion ≠ QuicVersion32
          then 2 else 1) ∧
      afterLastRead (main L W).trace =
        [.ParsePublicHeader a.data2 (.ok a.publicHeader2) a.pos2,
          .PrintPublicHeader a.publicHeader2] := by
  obtain ⟨a, ha⟩ := completed_of_returned L W h
  refine ⟨a, ha, ?_⟩
  rw [main_of_completed L W a ha]
  have hneg := ha.replied.signed.decoded.negotiated.negotiated
  rcases versionNegotiation_cases L W a.publicHeader a.remoteAddr with
    ⟨hc, hv⟩ | ⟨_, e, _, hv⟩ | ⟨hc, b, _, hv⟩
  · have hc2 : ¬(a.publicHeader.VersionFlag = true ∧
        a.publicHeader.QuicVersion ≠ QuicVersion32) := by
      simpa [versionMismatch] using hc
    simp [if_neg hc2, Attempt.negotiationEvents, hv, Attempt.receivedEvents,
      Attempt.decodedEvents, Attempt.signedEvents, Attempt.sentEvents, Attempt.secondEvents,
      Event.isReadFromUDP, Event.isWriteToUDP, afterLastRead]
  · rw [hv] at hneg; cases hneg
  · have hc2 : a.publicHeader.VersionFlag = true ∧
        a.publicHeader.QuicVersion ≠ QuicVersion32 := by
      simpa [versionMismatch] using hc
    simp [if_pos hc2, Attempt.negotiationEvents, hv, Attempt.receivedEvents,
      Attempt.decodedEvents, Attempt.signedEvents, Attempt.sentEvents, Attempt.secondEvents,
      Event.isReadFromUDP, Event.isWriteToUDP, afterLastRead]

/-- C9, amended, at `helloWorld`: the run returns, with two reads and one
write. -/
theorem C9_reads_and_writes_witness :
    (main sampleLib helloWorld).outcome = .returned ∧
    ((main sampleLib helloWorld).trace.filter Event.isReadFromUDP).length = 2 :=
  ⟨by decide, by
    obtain ⟨_, _, _, h2, _⟩ := C9_reads_and_writes sampleLib helloWorld (by decide)
    exact h2⟩

/-! ## C10 : the buffer of the second read -/

/-- The second read and the second parse, when the read delivers a datagram:
the buffer offered has the length of `buf`, and what is parsed is the datagram
cut to that length. -/
theorem secondPacket_of_read (L : Lib) (W : World) (buf d2 : Bytes) (a2 : UDPAddr)
    (hr : W.ReadFromUDP 1 = .datagram d2 a2) :
    (secondPacket L W buf).trace.filter Event.isReadFromUDP =
        [.ReadFromUDP buf.length (.datagram d2 a2)] ∧
    (secondPacket L W buf).trace.filter Event.isParsePublicHeader =
        [.ParsePublicHeader (d2.take (min d2.length buf.length))
          (L.ParsePublicHeader (NewReader (d2.take (min d2.length buf.length)))).1
          (L.ParsePublicHeader (NewReader (d2.take (min d2.length buf.length)))).2] := by
  simp only [secondPacket, hr]
  split <;> simp_all [Event.isReadFromUDP, Event.isParsePublicHeader]

/-- C10.  In every attempt that sends its reply (`a.Replied`) and whose second
read delivers a datagram `d2`: the buffer offered to the second `ReadFromUDP` has
the length of `data`, the first datagram as cut by `data = data[:n]`, which is
`min (len d) 0x10000` and not 0x10000; the bytes handed to the second
`ParsePublicHeader` are `d2` cut to that length, so their length is at most (in
fact equal to) the smaller of the two lengths, and a second datagram longer than
the first is cut to exactly the first one's length. -/
theorem C10_second_read_buffer (L : Lib) (W : World) (a : Attempt) (h : a.Replied L W)
    (hr : W.ReadFromUDP 1 = .datagram a.d2 a.remoteAddr2) :
    (main L W).trace.filter Event.isReadFromUDP =
      [.ReadFromUDP 0x10000 (.datagram a.d a.remoteAddr),
        .ReadFromUDP a.data.length (.datagram a.d2 a.remoteAddr2)] ∧
    a.data.length = min a.d.length 0x10000 ∧
    (main L W).trace.filter Event.isParsePublicHeader =
      [.ParsePublicHeader a.data (.ok a.publicHeader) a.pos,
        .ParsePublicHeader a.data2 (L.ParsePublicHeader (NewReader a.data2)).1
          (L.ParsePublicHeader (NewReader a.data2)).2] ∧
    a.data2 = a.d2.take (min a.d2.length a.data.length) ∧
    a.data2.length ≤ min a.data.length a.d2.length ∧
    a.data2.length = min a.data.length a.d2.length ∧
    (a.data.length < a.d2.length →
      a.data2 = a.d2.take a.data.length ∧ a.data2.length = a.data.length) := by
  have hs := secondPacket_of_read L W a.data a.d2 a.remoteAddr2 hr
  have hlen : a.data2.length = min a.data.length a.d2.length := by
    simp only [Attempt.data2, List.length_take]; omega
  refine ⟨?_, ?_, ?_, rfl, by omega, hlen, fun hlt => ⟨?_, by omega⟩⟩
  · rw [main_of_replied L W a h]
    simp only [Run.after_trace, List.filter_append, hs.1, negotiationEvents_filter_isReadFromUDP]
    simp [Attempt.receivedEvents, Attempt.decodedEvents, Attempt.signedEvents,
      Attempt.sentEvents, Event.isReadFromUDP]
  · simp only [Attempt.data, List.length_take]; omega
  · rw [main_of_replied L W a h]
    simp only [Run.after_trace, List.filter_append, hs.2,
      negotiationEvents_filter_isParsePublicHeader]
    simp [Attempt.receivedEvents, Attempt.decodedEvents, Attempt.signedEvents,
      Attempt.sentEvents, Event.isParsePublicHeader, Attempt.data2]
  · simp only [Attempt.data2]
    rw [Nat.min_eq_right (Nat.le_of_lt hlt)]

theorem shortFirstAttempt_replied : shortFirstAttempt.Replied sampleLib shortFirstWorld :=
  ⟨⟨⟨⟨⟨rfl, rfl, rfl, rfl, rfl⟩, rfl⟩, rfl, rfl, rfl, rfl⟩, rfl, rfl⟩, rfl⟩

/-- C10 at `shortFirstWorld`: the first datagram has 56 bytes, the second 112,
and the second parse is handed 56 bytes. -/
theorem C10_second_read_buffer_witness :
    shortFirstAttempt.Replied sampleLib shortFirstWorld ∧
    shortFirstAttempt.d.length = 56 ∧ shortFirstAttempt.d2.length = 112 ∧
    shortFirstAttempt.data2.length = 56 :=
  ⟨shortFirstAttempt_replied, by decide, by decide,
    ((C10_second_read_buffer sampleLib shortFirstWorld shortFirstAttempt
      shortFirstAttempt_replied rfl).2.2.2.2.2.2 (by decide)).2.trans (by decide)⟩

end QuicExample
